import Mathlib

/-!
Verification of the EDON gateway governance core against its specification.

This file gives a shallow embedding of the governance pipeline of the
`edon-gateway` repository:

* `src/edon_gateway/schemas/__init__.py` — the data model (`RiskLevel`,
  `Tool`, `ActionSource`, `Verdict`, `ReasonCode`, `IntentContract`,
  `Action`, `Decision`),
* `src/edon_gateway/policies.py` — `PolicyConfig` and `PolicyEngine`,
* `src/edon_gateway/governor.py` — `EDONGovernor.evaluate` and
  `EDONGovernor._check_intent_alignment`,
* `src/edon_gateway/main.py` — the `/execute` and `/clawdbot/invoke`
  handlers (from the point where the action and intent are resolved),
* `src/edon_gateway/persistence/database.py` — `save_audit_event`,
  `save_credential`, `get_credential`, and the rate-limit counters,
* `src/edon_gateway/middleware/rate_limit.py` — the rate-limit middleware.

Python dynamic values appearing in `params` dictionaries are embedded by the
inductive `Value`; machine-level details that the claims do not touch
(SQLite wire encoding, JSON serialization of stored blobs) are modelled by
keeping the structured value.  Timestamps are embedded by `PyDateTime`,
carrying the three observations the code makes of a `datetime`: `.hour`,
`.timestamp()` (at second granularity, as an integer) and `.isoformat()`.
-/

namespace EdonGateway

/-- Python single-quote character, used when rendering Python `str`/`repr`
forms of values (as `str(...)` does in the source). -/
def sq : String := String.mk [Char.ofNat 39]

/-- Embedding of `schemas.RiskLevel` (`low`, `medium`, `high`, `critical`). -/
inductive RiskLevel where
  | low
  | medium
  | high
  | critical
deriving DecidableEq, Repr

/-- String value of a `RiskLevel` member (`RiskLevel.LOW.value == "low"` etc.). -/
def RiskLevel.value : RiskLevel → String
  | .low => "low"
  | .medium => "medium"
  | .high => "high"
  | .critical => "critical"

/-- Embedding of `schemas.Tool`. -/
inductive Tool where
  | email
  | shell
  | calendar
  | file
  | clawdbot
  | brave_search
  | gmail
  | google_calendar
  | elevenlabs
  | github
  | memory
deriving DecidableEq, Repr

/-- String value of a `Tool` member. -/
def Tool.value : Tool → String
  | .email => "email"
  | .shell => "shell"
  | .calendar => "calendar"
  | .file => "file"
  | .clawdbot => "clawdbot"
  | .brave_search => "brave_search"
  | .gmail => "gmail"
  | .google_calendar => "google_calendar"
  | .elevenlabs => "elevenlabs"
  | .github => "github"
  | .memory => "memory"

/-- Embedding of `schemas.ActionSource`. -/
inductive ActionSource where
  | agent
  | user
  | clawdbot
deriving DecidableEq, Repr

/-- String value of an `ActionSource` member. -/
def ActionSource.value : ActionSource → String
  | .agent => "agent"
  | .user => "user"
  | .clawdbot => "clawdbot"

/-- Embedding of `schemas.Verdict`.  Note that in the source the `ERROR`
member has the lowercase string value `"error"`. -/
inductive Verdict where
  | ALLOW
  | BLOCK
  | ESCALATE
  | DEGRADE
  | PAUSE
  | ERROR
deriving DecidableEq, Repr

/-- String value of a `Verdict` member. -/
def Verdict.value : Verdict → String
  | .ALLOW => "ALLOW"
  | .BLOCK => "BLOCK"
  | .ESCALATE => "ESCALATE"
  | .DEGRADE => "DEGRADE"
  | .PAUSE => "PAUSE"
  | .ERROR => "error"

/-- Embedding of `schemas.ReasonCode`. -/
inductive ReasonCode where
  | APPROVED
  | SCOPE_VIOLATION
  | RISK_TOO_HIGH
  | DATA_EXFIL
  | OUT_OF_HOURS
  | INTENT_MISMATCH
  | NEED_CONFIRMATION
  | DEGRADED_TO_SAFE_ALTERNATIVE
  | LOOP_DETECTED
  | RATE_LIMIT
deriving DecidableEq, Repr

/-- String value of a `ReasonCode` member (identical to its name). -/
def ReasonCode.value : ReasonCode → String
  | .APPROVED => "APPROVED"
  | .SCOPE_VIOLATION => "SCOPE_VIOLATION"
  | .RISK_TOO_HIGH => "RISK_TOO_HIGH"
  | .DATA_EXFIL => "DATA_EXFIL"
  | .OUT_OF_HOURS => "OUT_OF_HOURS"
  | .INTENT_MISMATCH => "INTENT_MISMATCH"
  | .NEED_CONFIRMATION => "NEED_CONFIRMATION"
  | .DEGRADED_TO_SAFE_ALTERNATIVE => "DEGRADED_TO_SAFE_ALTERNATIVE"
  | .LOOP_DETECTED => "LOOP_DETECTED"
  | .RATE_LIMIT => "RATE_LIMIT"

/-- Embedding of a Python `datetime`: the code observes only `.hour`,
`.timestamp()` (embedded at second granularity) and `.isoformat()`. -/
structure PyDateTime where
  hour : Int
  epoch : Int
  iso : String
deriving DecidableEq, Repr

/-- Embedding of a dynamically typed Python value as found in `params`
dictionaries.  Dictionaries keep the Python insertion order. -/
inductive Value where
  | pyStr (s : String)
  | pyInt (n : Int)
  | pyBool (b : Bool)
  | pyNone
  | pyList (xs : List Value)
  | pyDict (kvs : List (String × Value))

/-- Embedding of a Python `Dict[str, Any]` as an association list in
insertion order (Python dictionaries preserve insertion order). -/
abbrev Params := List (String × Value)

mutual

/-- Rendering of a `Value` as Python `str`/`repr` produces it (strings are
single-quoted, booleans capitalized, `None` for null). -/
def Value.pyRepr : Value → String
  | .pyStr s => sq ++ s ++ sq
  | .pyInt n => toString n
  | .pyBool b => if b then "True" else "False"
  | .pyNone => "None"
  | .pyList xs => "[" ++ Value.pyReprList xs ++ "]"
  | .pyDict kvs => "\x7b" ++ Value.pyReprKVs kvs ++ "\x7d"

/-- Comma-separated rendering of list elements. -/
def Value.pyReprList : List Value → String
  | [] => ""
  | [v] => v.pyRepr
  | v :: rest => v.pyRepr ++ ", " ++ Value.pyReprList rest

/-- Comma-separated rendering of dictionary items. -/
def Value.pyReprKVs : List (String × Value) → String
  | [] => ""
  | [kv] => sq ++ kv.1 ++ sq ++ ": " ++ kv.2.pyRepr
  | kv :: rest => sq ++ kv.1 ++ sq ++ ": " ++ kv.2.pyRepr ++ ", " ++ Value.pyReprKVs rest

end

/-- Test whether `pat` occurs at the start of `hay` (character lists). -/
def beginsWithChars : List Char → List Char → Bool
  | [], _ => true
  | _ :: _, [] => false
  | a :: as, b :: bs => a == b && beginsWithChars as bs

/-- Test whether `pat` occurs anywhere in `hay` (character lists). -/
def containsChars (hay pat : List Char) : Bool :=
  match hay with
  | [] => beginsWithChars pat []
  | _ :: rest => beginsWithChars pat hay || containsChars rest pat

/-- Python `pat in s` substring test. -/
def strContains (s pat : String) : Bool := containsChars s.data pat.data

/-- Python `s.startswith(pat)`. -/
def pyStartsWith (s pat : String) : Bool := beginsWithChars pat.data s.data

/-- ASCII lowering of one character (the configured patterns are ASCII, so
Python `str.lower` coincides with ASCII lowering on all inputs the code
compares them against). -/
def pyCharLower (c : Char) : Char :=
  if c.isUpper then Char.ofNat (c.toNat + 32) else c

/-- Python `s.lower()`. -/
def pyLower (s : String) : String := String.mk (s.data.map pyCharLower)

/-- Python whitespace test for `str.strip`. -/
def pyIsSpace (c : Char) : Bool := c == ' ' || c == '\t' || c == '\n' || c == '\r'

/-- Python `s.strip()`: drop whitespace from both ends. -/
def pyStrip (s : String) : String :=
  String.mk (((s.data.dropWhile pyIsSpace).reverse.dropWhile pyIsSpace).reverse)

/-- Python `s[:n]` on a string. -/
def pyTake (n : Nat) (s : String) : String := String.mk (s.data.take n)

/-- Splitting accumulator for `pySplitComma`. -/
def pySplitCommaAux : List Char → List Char → List String
  | [], acc => [String.mk acc.reverse]
  | c :: rest, acc =>
    if c == ',' then String.mk acc.reverse :: pySplitCommaAux rest []
    else pySplitCommaAux rest (c :: acc)

/-- Python `s.split(",")`. -/
def pySplitComma (s : String) : List String := pySplitCommaAux s.data []

/-- Join strings with `", "` (the rendering Python `str` uses between
collection elements). -/
def joinCommaSpace : List String → String
  | [] => ""
  | [x] => x
  | x :: rest => x ++ ", " ++ joinCommaSpace rest

/-- Insertion into a key-sorted association list (helper for `sorted(...)`
over dictionary items; dictionary keys are unique, so stability questions do
not arise). -/
def insertSortedKV (x : String × Value) : List (String × Value) → List (String × Value)
  | [] => [x]
  | y :: ys => if x.1 < y.1 then x :: y :: ys else y :: insertSortedKV x ys

/-- Embedding of Python `sorted(d.items())`: items sorted by key. -/
def sortKVs : List (String × Value) → List (String × Value)
  | [] => []
  | x :: xs => insertSortedKV x (sortKVs xs)

/-- Rendering of one `(key, value)` tuple as Python `str` renders it. -/
def pyReprPair (kv : String × Value) : String :=
  "(" ++ sq ++ kv.1 ++ sq ++ ", " ++ kv.2.pyRepr ++ ")"

/-- Embedding of `str(sorted(action.params.items()))`, the params fingerprint
used by the governor and the policy engine for loop detection. -/
def paramsFingerprint (ps : Params) : String :=
  "[" ++ joinCommaSpace ((sortKVs ps).map pyReprPair) ++ "]"

/-- Embedding of `str(params)` on a params dictionary (used by
`PolicyEngine.is_external_sharing`). -/
def paramsStr (ps : Params) : String := (Value.pyDict ps).pyRepr

/-- Embedding of `params.get(key, "")` at the places where the code uses the
result as a string (`command`, inner `tool` name).  This typed view is
exact for string values and for an absent key; on a non-string value the
source does not produce `""` but raises when it goes on to call
`.lower()` — that raising path is modelled faithfully by
`is_dangerous_command_dyn`/`compute_risk_dyn` below and decides claim C5;
the decision-outcome claims range over string-valued params. -/
def getStrParam (ps : Params) (key : String) : String :=
  match ps.lookup key with
  | some (.pyStr s) => s
  | _ => ""

/-- Embedding of `policies.PolicyConfig` with the defaults set in
`__post_init__` (environment overrides are inputs of the model, so they show
up as arbitrary field values).  `auto_allow_risk_levels` is carried for
fidelity but, as in the source, is not consulted by `evaluate`. -/
structure PolicyConfig where
  max_actions_per_minute : Nat := 30
  loop_detection_window_seconds : Int := 60
  loop_detection_threshold : Nat := 5
  work_hours_start : Int := 8
  work_hours_end : Int := 18
  auto_allow_risk_levels : List RiskLevel := [RiskLevel.low]
  escalate_risk_levels : List RiskLevel := [RiskLevel.high, RiskLevel.critical]
  dangerous_shell_commands : List String :=
    ["rm -rf", "format", "del /f /s /q", "shutdown", "reboot"]
  external_sharing_patterns : List String :=
    ["export", "upload", "share", "send_to", "external"]
deriving DecidableEq, Repr

/-- One entry of `PolicyEngine.action_history`:
`(timestamp, tool, op, params_hash)`. -/
structure HistEntry where
  ts : Int
  tool : Tool
  op : String
  params_hash : String
deriving DecidableEq, Repr

/-- Embedding of `PolicyEngine.is_work_hours`. -/
def is_work_hours (cfg : PolicyConfig) (timestamp : PyDateTime) : Bool :=
  decide (cfg.work_hours_start ≤ timestamp.hour ∧ timestamp.hour < cfg.work_hours_end)

/-- Embedding of `PolicyEngine.check_rate_limit`: number of history entries
in the last 60 seconds reaches `max_actions_per_minute`. -/
def check_rate_limit (cfg : PolicyConfig) (hist : List HistEntry)
    (current_time : PyDateTime) : Bool :=
  decide (cfg.max_actions_per_minute ≤
    (hist.filter (fun e => decide (current_time.epoch - 60 ≤ e.ts))).length)

/-- Embedding of `PolicyEngine.detect_loop`: number of entries matching
`(tool, op, params_hash)` within the loop window reaches the threshold. -/
def detect_loop (cfg : PolicyConfig) (hist : List HistEntry) (tool : Tool)
    (op : String) (params_hash : String) (current_time : PyDateTime) : Bool :=
  decide (cfg.loop_detection_threshold ≤
    (hist.filter (fun e =>
      decide (current_time.epoch - cfg.loop_detection_window_seconds ≤ e.ts) &&
      e.tool == tool && e.op == op && e.params_hash == params_hash)).length)

/-- Embedding of `PolicyEngine.is_dangerous_command`: case-insensitive
substring match against the dangerous-command set. -/
def is_dangerous_command (cfg : PolicyConfig) (command : String) : Bool :=
  cfg.dangerous_shell_commands.any (fun dangerous => strContains (pyLower command) dangerous)

/-- Embedding of `PolicyEngine.is_external_sharing`: pattern match on the
lowercased op, then on the lowercased `str(params)`. -/
def is_external_sharing (cfg : PolicyConfig) (op : String) (params : Params) : Bool :=
  cfg.external_sharing_patterns.any (fun pattern => strContains (pyLower op) pattern) ||
  cfg.external_sharing_patterns.any (fun pattern => strContains (pyLower (paramsStr params)) pattern)

/-- Embedding of the recognized members of the `constraints` dictionary of an
intent contract, with the types the specification assigns them.  An absent
key is embedded by the default the code supplies (`.get(key, False)`,
`.get(key, [])`); `max_recipients` tracks key presence
(`"max_recipients" in intent.constraints`) through `Option`.  The source
reads these values from an unvalidated `Dict[str, Any]` and raises on
ill-typed ones (e.g. a non-int `max_recipients` fails the `>` comparison);
that evaluator-raises behaviour is the subject of claim C5, while the
decision-outcome claims range over constraint values of the declared
types. -/
structure Constraints where
  drafts_only : Bool := false
  allowed_clawdbot_tools : List String := []
  max_recipients : Option Int := none
  work_hours_only : Bool := false
  no_external_sharing : Bool := false
  escalate_on_ambiguous_intent : Bool := false
deriving DecidableEq, Repr

/-- Embedding of `schemas.IntentContract`.  `scope` is the tool-name to
allowed-ops dictionary; `created_at` is not consulted by any claim and is
omitted. -/
structure IntentContract where
  objective : String
  scope : List (String × List String)
  constraints : Constraints
  risk_level : RiskLevel
  approved_by_user : Bool
deriving DecidableEq, Repr

/-- Embedding of `IntentContract.allows_tool_op`: `tool` must be a key of
`scope` and `op` must be in its list. -/
def IntentContract.allows_tool_op (i : IntentContract) (tool : String) (op : String) : Bool :=
  match i.scope.lookup tool with
  | none => false
  | some ops => ops.contains op

/-- Embedding of `schemas.Action`.  The `id` default is `str(uuid.uuid4())`;
the model passes freshly generated ids in explicitly wherever the source
constructs an `Action`. -/
structure Action where
  tool : Tool
  op : String
  id : String
  params : Params := []
  requested_at : PyDateTime
  source : ActionSource := ActionSource.agent
  tags : List String := []
  estimated_blast_radius : Int := 0
  estimated_risk : RiskLevel := RiskLevel.low
  computed_risk : Option RiskLevel := none

/-- Embedding of an escalation option dictionary `{"id": ..., "label": ...}`
as the pair `(id, label)`. -/
abbrev EscOption := String × String

/-- Embedding of `schemas.Decision`. -/
structure Decision where
  verdict : Verdict
  reason_code : ReasonCode
  explanation : String
  safe_alternative : Option Action := none
  required_confirmation : Bool := false
  policy_version : String := "1.0.0"
  escalation_question : Option String := none
  escalation_options : Option (List EscOption) := none

/-- Embedding of `PolicyEngine.record_action`: append
`(timestamp, tool, op, params_hash)` and drop entries older than one hour. -/
def record_action (hist : List HistEntry) (action : Action)
    (current_time : PyDateTime) : List HistEntry :=
  (hist ++ [({ ts := current_time.epoch, tool := action.tool, op := action.op,
               params_hash := paramsFingerprint action.params } : HistEntry)]).filter
    (fun e => decide (current_time.epoch - 3600 ≤ e.ts))

/-- Embedding of step 0 of `EDONGovernor.evaluate`: start from
`action.estimated_risk` and promote to `critical` when a shell command
matches the dangerous-command set. -/
def compute_risk (cfg : PolicyConfig) (action : Action) : RiskLevel :=
  if action.tool = Tool.shell ∧
      is_dangerous_command cfg (getStrParam action.params "command") = true then
    RiskLevel.critical
  else
    action.estimated_risk

/-- Python `value.lower()` on a dynamic value: only strings have a
`.lower` method; on any other value Python raises AttributeError,
embedded as `none`. -/
def pyLowerDyn : Value → Option String
  | .pyStr s => some (pyLower s)
  | _ => none

/-- Dynamic embedding of `PolicyEngine.is_dangerous_command` as Python
executes it on an arbitrary `command` value: the first statement
`command_lower = command.lower()` raises unless the value is a string
(`none`); on a string it is the usual substring scan. -/
def is_dangerous_command_dyn (cfg : PolicyConfig) (command : Value) : Option Bool :=
  match pyLowerDyn command with
  | some command_lower =>
    some (cfg.dangerous_shell_commands.any
      (fun dangerous => strContains command_lower dangerous))
  | none => none

/-- Dynamic embedding of step 0 of `EDONGovernor.evaluate` (the
server-side risk computation) as Python executes it on dynamically typed
params: `command = action.params.get("command", "")` followed by
`is_dangerous_command(command)`.  For a shell action whose `command`
parameter is present but not a string this raises (`none`); `evaluate` has
no `try/except` around it, so the exception propagates out of the
evaluator instead of becoming a Decision. -/
def compute_risk_dyn (cfg : PolicyConfig) (tool : Tool) (params : Params)
    (estimated_risk : RiskLevel) : Option RiskLevel :=
  if tool = Tool.shell then
    match is_dangerous_command_dyn cfg ((params.lookup "command").getD (Value.pyStr "")) with
    | some true => some RiskLevel.critical
    | some false => some estimated_risk
    | none => none
  else
    some estimated_risk

/-- Embedding of the `action_keywords` dictionary of
`EDONGovernor._check_intent_alignment`.  `Tool.CLAWDBOT` is not a key of the
Python dictionary, so `.get(action.tool, [])` yields the empty list for it. -/
def action_keywords : Tool → List String
  | .email => ["email", "inbox", "message", "mail"]
  | .calendar => ["calendar", "meeting", "schedule", "event"]
  | .file => ["file", "document", "folder"]
  | .shell => ["command", "system", "terminal"]
  | .brave_search => ["search", "web", "research", "look up", "find"]
  | .gmail => ["gmail", "inbox", "email", "mail"]
  | .google_calendar => ["calendar", "event", "schedule", "meeting"]
  | .elevenlabs => ["voice", "speech", "tts", "read aloud", "storytelling"]
  | .github => ["github", "repo", "issue", "code", "pr"]
  | .memory => ["memory", "preference", "remember", "episode", "past task"]
  | .clawdbot => []

/-- Embedding of `EDONGovernor._check_intent_alignment`: some keyword of the
tool appears in the lowercased objective, or the tool has no keywords. -/
def check_intent_alignment (action : Action) (intent : IntentContract) : Bool :=
  let objective_lower := pyLower intent.objective
  let keywords := action_keywords action.tool
  keywords.any (fun keyword => strContains objective_lower keyword) || keywords.isEmpty

/-- Rendering of a Python list of strings as `f"..."` interpolation renders
it (used in scope and allowlist explanations). -/
def pyReprStrList (xs : List String) : String :=
  "[" ++ joinCommaSpace (xs.map (fun s => sq ++ s ++ sq)) ++ "]"

/-- Embedding of the recipient-count computation of rule 9 of
`EDONGovernor.evaluate`: `params.get("recipients", [])`, a string is split
on commas and stripped, a list is measured by `len`, anything else counts
as one recipient. -/
def recipientCount (ps : Params) : Nat :=
  match ps.lookup "recipients" with
  | some (.pyStr s) => ((pySplitComma s).map pyStrip).length
  | some (.pyList xs) => xs.length
  | some _ => 1
  | none => 0

/-- Rules 9–12 of `EDONGovernor.evaluate` (recipient cap, risk threshold,
objective alignment, final ALLOW), split out so that each evaluation stage
stays shallow.  `hist2` is the history after the action was recorded;
`computed_risk` is recomputed here (it is a pure function of the config and
the action, assigned once near the top of the Python `evaluate`). -/
def evaluate_constraints (cfg : PolicyConfig) (action : Action)
    (intent : IntentContract) (hist2 : List HistEntry) (fresh_id : String) :
    Decision × List HistEntry :=
  let computed_risk := compute_risk cfg action
  -- 9. max_recipients constraint (only the send op returns here)
  if (match intent.constraints.max_recipients with
      | some m => decide ((recipientCount action.params : Int) > m)
      | none => false) = true ∧ action.op = "send" then
    (⟨Verdict.ESCALATE, ReasonCode.NEED_CONFIRMATION,
      "Recipient count (" ++ toString (recipientCount action.params) ++
        ") exceeds max (" ++ toString (intent.constraints.max_recipients.getD 0) ++
        "). Requires confirmation.",
      some ⟨action.tool, "draft", fresh_id, action.params, action.requested_at,
        action.source, action.tags ++ ["degraded", "too_many_recipients"], 0,
        RiskLevel.low, some computed_risk⟩,
      true, "1.0.0",
      some ("Send email to " ++ toString (recipientCount action.params) ++
        " recipients? (max allowed: " ++
        toString (intent.constraints.max_recipients.getD 0) ++ ")"),
      some [("allow_once", "Allow once"), ("draft_only", "Save as draft only"),
        ("keep_blocking", "Keep blocking")]⟩, hist2)
  -- 10. risk threshold
  else if cfg.escalate_risk_levels.contains computed_risk = true ∧
      ¬(intent.approved_by_user = true ∧ computed_risk = RiskLevel.high) then
    (⟨Verdict.ESCALATE, ReasonCode.NEED_CONFIRMATION,
      "High/critical risk action requires user confirmation (risk: " ++
        computed_risk.value ++ ")", none, true, "1.0.0", none, none⟩, hist2)
  -- 11. objective alignment
  else if check_intent_alignment action intent = false then
    if (pyStrip intent.objective).length < 15 ∧
        intent.constraints.escalate_on_ambiguous_intent = true then
      (⟨Verdict.ESCALATE, ReasonCode.NEED_CONFIRMATION,
        "Intent is ambiguous; please clarify.", none, true, "1.0.0",
        some "What would you like to do? (e.g. search, send email, create calendar event)",
        some [("clarify", "I" ++ sq ++ "ll clarify"), ("keep_blocking", "Cancel")]⟩, hist2)
    else
      (⟨Verdict.BLOCK, ReasonCode.INTENT_MISMATCH,
        "Action does not align with intent objective: " ++ intent.objective,
        none, false, "1.0.0", none, none⟩, hist2)
  -- 12. all checks passed
  else
    (⟨Verdict.ALLOW, ReasonCode.APPROVED,
      "Action approved: within scope, constraints satisfied, risk acceptable",
      none, false, "1.0.0", none, none⟩, hist2)

/-- Rules 5–8 of `EDONGovernor.evaluate` (loop detection, rate limiting,
dangerous shell commands, data exfiltration), operating on the history
`hist2` into which the action was already recorded. -/
def evaluate_post_record (cfg : PolicyConfig) (action : Action)
    (intent : IntentContract) (hist2 : List HistEntry) (fresh_id : String) :
    Decision × List HistEntry :=
  -- 5. loop detection (after recording)
  if detect_loop cfg hist2 action.tool action.op (paramsFingerprint action.params)
      action.requested_at = true then
    (⟨Verdict.PAUSE, ReasonCode.LOOP_DETECTED,
      "Loop detected: " ++ action.tool.value ++ "." ++ action.op ++ " repeated " ++
        toString cfg.loop_detection_threshold ++ "+ times in " ++
        toString cfg.loop_detection_window_seconds ++ "s",
      none, false, "1.0.0", none, none⟩, hist2)
  -- 6. rate limiting
  else if check_rate_limit cfg hist2 action.requested_at = true then
    (⟨Verdict.PAUSE, ReasonCode.RATE_LIMIT,
      "Rate limit exceeded: " ++ toString cfg.max_actions_per_minute ++
        " actions per minute", none, false, "1.0.0", none, none⟩, hist2)
  -- 7. dangerous shell commands
  else if action.tool = Tool.shell ∧
      is_dangerous_command cfg (getStrParam action.params "command") = true then
    (⟨Verdict.BLOCK, ReasonCode.RISK_TOO_HIGH,
      "Dangerous shell command detected: " ++
        pyTake 50 (getStrParam action.params "command"),
      none, false, "1.0.0", none, none⟩, hist2)
  -- 8. data exfiltration
  else if intent.constraints.no_external_sharing = true ∧
      is_external_sharing cfg action.op action.params = true then
    (⟨Verdict.BLOCK, ReasonCode.DATA_EXFIL,
      "External sharing detected in " ++ action.op ++ " operation",
      none, false, "1.0.0", none, none⟩, hist2)
  else
    evaluate_constraints cfg action intent hist2 fresh_id

/-- Embedding of `EDONGovernor.evaluate` (rules 1–4 here; the remaining
rules live in `evaluate_post_record` and `evaluate_constraints`, entered
after the action is recorded into the history).  The mutable pieces are
made explicit: the policy engine history is threaded in and out, and
`fresh_id` stands for the `uuid.uuid4()` id of an `Action` the rule bodies
construct (at most one per call).  The in-place assignment of
`action.computed_risk` is reflected by the callers (the handlers) through
`compute_risk`. -/
def evaluate (cfg : PolicyConfig) (action : Action) (intent : IntentContract)
    (hist : List HistEntry) (fresh_id : String) : Decision × List HistEntry :=
  let computed_risk := compute_risk cfg action
  -- 1. drafts_only degrade (before the scope check)
  if intent.constraints.drafts_only = true ∧ action.tool = Tool.email ∧ action.op = "send" then
    (⟨Verdict.DEGRADE, ReasonCode.DEGRADED_TO_SAFE_ALTERNATIVE,
      "Intent requires drafts_only, degrading send to draft",
      some ⟨action.tool, "draft", fresh_id, action.params, action.requested_at,
        action.source, action.tags ++ ["degraded"], 0, RiskLevel.low, some computed_risk⟩,
      false, "1.0.0", none, none⟩, hist)
  -- 2. scope check, with critical risk taking precedence over the scope reason
  else if intent.allows_tool_op action.tool.value action.op = false then
    if computed_risk = RiskLevel.critical then
      (⟨Verdict.BLOCK, ReasonCode.RISK_TOO_HIGH,
        "Dangerous operation blocked: " ++ action.tool.value ++ "." ++ action.op ++
          " (also out of scope)", none, false, "1.0.0", none, none⟩, hist)
    else
      (⟨Verdict.BLOCK, ReasonCode.SCOPE_VIOLATION,
        "Action " ++ action.tool.value ++ "." ++ action.op ++ " not in scope. Allowed: " ++
          pyReprStrList ((intent.scope.lookup action.tool.value).getD []),
        none, false, "1.0.0", none, none⟩, hist)
  -- 2.5. allowed_clawdbot_tools sub-allowlist
  else if action.tool = Tool.clawdbot ∧ action.op = "invoke" ∧
      intent.constraints.allowed_clawdbot_tools ≠ [] ∧
      intent.constraints.allowed_clawdbot_tools.contains
        (getStrParam action.params "tool") = false then
    (⟨Verdict.BLOCK, ReasonCode.SCOPE_VIOLATION,
      "Clawdbot tool " ++ sq ++ getStrParam action.params "tool" ++ sq ++
        " not in allowed list. Allowed: " ++
        pyReprStrList intent.constraints.allowed_clawdbot_tools,
      none, false, "1.0.0", none, none⟩, hist)
  -- 3. work hours constraint
  else if intent.constraints.work_hours_only = true ∧
      is_work_hours cfg action.requested_at = false then
    (⟨Verdict.BLOCK, ReasonCode.OUT_OF_HOURS,
      "Action requested outside work hours (current: " ++
        toString action.requested_at.hour ++ ":00, work hours: " ++
        toString cfg.work_hours_start ++ "-" ++
        toString cfg.work_hours_end ++ ")", none, false, "1.0.0", none, none⟩, hist)
  else
    -- 4. record the action for loop detection before the remaining checks
    evaluate_post_record cfg action intent
      (record_action hist action action.requested_at) fresh_id

/-- Row of the `audit_events` table as inserted by
`Database.save_audit_event` (the `action_params` and `context` JSON blobs
are kept as structured values). -/
structure AuditRow where
  timestamp : String
  action_id : String
  action_tool : String
  action_op : String
  action_params : Params
  action_source : String
  action_estimated_risk : String
  action_computed_risk : Option String
  decision_verdict : String
  decision_reason_code : String
  decision_explanation : String
  decision_policy_version : String
  intent_id : Option String
  agent_id : Option String
  context : Params
  created_at : String

/-- Row of the `decisions` table (`decision_id` is the primary key). -/
structure DecisionRow where
  decision_id : String
  action_id : String
  verdict : String
  reason_code : String
  explanation : String
  policy_version : String
  intent_id : Option String
  agent_id : Option String
  created_at : String

/-- The audit/decision portion of the store.  Lists are kept in insertion
order, which is the SQLite rowid order. -/
structure AuditDb where
  audit_events : List AuditRow := []
  decisions : List DecisionRow := []

/-- Embedding of `Database.save_audit_event`.  `now` is the
`datetime.now(UTC).isoformat()` string taken at the top of the function.
The audit event is appended; the decision row is written with
`INSERT OR REPLACE` keyed by `decision_id` (replacement assigns a fresh
rowid, embedded by filtering out the old row and appending).  Returns the
created decision id and the new store. -/
def save_audit_event (db : AuditDb) (action : Action) (decision : Decision)
    (intent_id : Option String) (agent_id : Option String) (context : Params)
    (now : String) : String × AuditDb :=
  let row : AuditRow :=
    { timestamp := action.requested_at.iso
      action_id := action.id
      action_tool := action.tool.value
      action_op := action.op
      action_params := action.params
      action_source := action.source.value
      action_estimated_risk := action.estimated_risk.value
      action_computed_risk := action.computed_risk.map RiskLevel.value
      decision_verdict := decision.verdict.value
      decision_reason_code := decision.reason_code.value
      decision_explanation := decision.explanation
      decision_policy_version := decision.policy_version
      intent_id := intent_id
      agent_id := agent_id
      context := context
      created_at := now }
  let decision_id := if action.id ≠ "" then "dec-" ++ action.id ++ "-" ++ now else "dec-" ++ now
  let drow : DecisionRow :=
    { decision_id := decision_id
      action_id := action.id
      verdict := decision.verdict.value
      reason_code := decision.reason_code.value
      explanation := decision.explanation
      policy_version := decision.policy_version
      intent_id := intent_id
      agent_id := agent_id
      created_at := now }
  (decision_id,
   { audit_events := db.audit_events ++ [row]
     decisions := db.decisions.filter (fun r => r.decision_id ≠ decision_id) ++ [drow] })

/-- Outcome of `main._execute_tool`: either a `{"result": ...}` dictionary
or an error dictionary carrying `status_code` 503. -/
inductive ExecOutcome where
  | result (r : Value)
  | unavailable (err : String)

/-- Embedding of a FastAPI `HTTPException` raised by a handler. -/
structure HttpError where
  status_code : Nat
  detail : String

/-- Embedding of the `ExecuteResponse` model of `main.py`
(`safe_alternative` is declared on the model but the handler never fills
it). -/
structure ExecuteResponse where
  verdict : String
  decision_id : String
  reason_code : Option String := none
  explanation : String
  safe_alternative : Option Params := none
  execution : Option Value := none
  timestamp : String

/-- Embedding of the `POST /execute` handler `main.execute_action` from the
point where the `Action` and `IntentContract` have been resolved (request
parsing, intent loading and metrics are upstream of the claims).  The
mutable collaborators appear as explicit inputs: the policy history `hist`,
the store `db`, the fresh uuid `fresh_id`, the clock reading `now`
(isoformat; the handler's several `datetime.now` reads are one clock value
here), and the connector dispatch `execTool` standing for `_execute_tool`.
The in-place `action.computed_risk` assignment performed by `evaluate` is
reflected before the audit write, as `to_dict` observes it.  The
`try/except` around persistence cannot fire for the total store model and
is omitted. -/
def execute_action (cfg : PolicyConfig) (action : Action) (intent : IntentContract)
    (intent_id_for_audit : Option String) (agent_id : String)
    (hist : List HistEntry) (db : AuditDb) (fresh_id : String) (now : String)
    (execTool : Action → ExecOutcome) :
    Except HttpError ExecuteResponse × AuditDb × List HistEntry :=
  let r := evaluate cfg action intent hist fresh_id
  let decision := r.1
  let hist2 := r.2
  let action2 := { action with computed_risk := some (compute_risk cfg action) }
  let s := save_audit_event db action2 decision intent_id_for_audit (some agent_id)
    [("agent_id", Value.pyStr agent_id)] now
  let decision_id := s.1
  let db2 := s.2
  if decision.verdict ≠ Verdict.ALLOW ∧ decision.verdict ≠ Verdict.DEGRADE then
    (Except.ok
      { verdict := decision.verdict.value
        decision_id := decision_id
        reason_code := some decision.reason_code.value
        explanation := decision.explanation
        timestamp := now },
     db2, hist2)
  else
    match execTool action2 with
    | .unavailable err => (Except.error { status_code := 503, detail := err }, db2, hist2)
    | .result res =>
      (Except.ok
        { verdict := decision.verdict.value
          decision_id := decision_id
          reason_code := some decision.reason_code.value
          explanation := decision.explanation
          execution := some (Value.pyDict [("result", res)])
          timestamp := now },
       db2, hist2)

/-- Embedding of Python `a or b` on an optional string and a fallback
(an empty string is falsy). -/
def pyOrStr (a : Option String) (b : String) : String :=
  match a with
  | some s => if s = "" then b else s
  | none => b

/-- Embedding of the `ClawdbotInvokeRequest` model of `main.py` (the MAG
fields `decision_id`/`decision_bundle` are consumed by upstream middleware
and are not part of the handler logic modelled here). -/
structure ClawdbotPayload where
  tool : String
  action : String := "json"
  args : List (String × Value) := []
  sessionKey : Option String := none
  credential_id : Option String := none

/-- Embedding of the `ClawdbotInvokeResponse` model of `main.py`. -/
structure ClawdbotInvokeResponse where
  ok : Bool
  result : Option Value := none
  error : Option String := none
  edon_verdict : Option String := none
  edon_explanation : Option String := none
  details : Option Params := none

/-- Outcome of `ClawdbotConnector.invoke`: the result dictionary observed
through `result.get("success")`, `result.get("result", {})`,
`result.get("error", ...)` and `result.get("downstream_unavailable")`. -/
inductive ConnectorOutcome where
  | success (result : Option Value)
  | failure (error : Option String) (downstream_unavailable : Bool)

/-- The `Action` the `/clawdbot/invoke` handler builds from the request
payload (`tool=CLAWDBOT`, `op="invoke"`, the payload fields as params,
`source=CLAWDBOT`, tag `"clawdbot-proxy"`). -/
def clawdbot_action (payload : ClawdbotPayload) (now : PyDateTime)
    (fresh_id : String) : Action :=
  { tool := Tool.clawdbot
    op := "invoke"
    id := fresh_id
    params :=
      [("tool", Value.pyStr payload.tool),
       ("action", Value.pyStr payload.action),
       ("args", Value.pyDict payload.args),
       ("sessionKey", match payload.sessionKey with
                      | some s => Value.pyStr s
                      | none => Value.pyNone)]
    requested_at := now
    source := ActionSource.clawdbot
    tags := ["clawdbot-proxy"] }

/-- Embedding of the `POST /clawdbot/invoke` handler
`main.clawdbot_invoke_proxy` from the point where the intent contract has
been resolved (header intent lookup and active-preset fallback are upstream
of the claims).  `persist_decisions` is the `EDON_PERSIST_DECISIONS`
environment switch, `is_dev` the environment probe for the dev-only
`details`, `default_credential_id` the configured
`DEFAULT_CLAWDBOT_CREDENTIAL_ID`, `invoke` the connector dispatch, and
`now`/`fresh_id` the clock reading and the generated action uuid.  The
result carries the HTTP status (200 unless a `JSONResponse` overrides it)
next to the response body.  Exception paths that cannot arise for the
total store and connector models (persistence failure, connector raise)
are omitted. -/
def clawdbot_invoke_proxy (cfg : PolicyConfig) (payload : ClawdbotPayload)
    (x_agent_id x_edon_agent_id x_intent_id : Option String)
    (intent_contract : IntentContract) (hist : List HistEntry) (db : AuditDb)
    (persist_decisions : Bool) (is_dev : Bool) (default_credential_id : String)
    (now : PyDateTime) (fresh_id : String)
    (invoke : ClawdbotPayload → ConnectorOutcome) :
    (Nat × ClawdbotInvokeResponse) × AuditDb × List HistEntry :=
  let agent_id := pyOrStr x_edon_agent_id (pyOrStr x_agent_id "clawdbot-agent")
  let action := clawdbot_action payload now fresh_id
  let r := evaluate cfg action intent_contract hist fresh_id
  let decision := r.1
  let hist2 := r.2
  let action2 := { action with computed_risk := some (compute_risk cfg action) }
  let db2 :=
    if persist_decisions then
      (save_audit_event db action2 decision x_intent_id (some agent_id)
        [("agent_id", Value.pyStr agent_id), ("source", Value.pyStr "clawdbot")] now.iso).2
    else
      db
  if decision.verdict ≠ Verdict.ALLOW ∧ decision.verdict ≠ Verdict.DEGRADE then
    ((200,
      { ok := false
        error := some (if decision.explanation = "" then
            "Blocked: " ++ decision.verdict.value else decision.explanation)
        edon_verdict := some decision.verdict.value
        edon_explanation := some decision.explanation }),
     db2, hist2)
  else
    let credential_id := pyOrStr payload.credential_id default_credential_id
    let details : Option Params :=
      if is_dev then some [("used_credential_id", Value.pyStr credential_id)] else none
    match invoke payload with
    | .success result =>
      ((200,
        { ok := true
          result := some (result.getD (Value.pyDict []))
          edon_verdict := some decision.verdict.value
          edon_explanation := some decision.explanation
          details := details }),
       db2, hist2)
    | .failure error true =>
      ((503,
        { ok := false
          error := some (error.getD "Unknown Clawdbot execution error")
          edon_verdict := some Verdict.ERROR.value
          edon_explanation := some "Clawdbot execution failed"
          details := details }),
       db2, hist2)
    | .failure error false =>
      ((200,
        { ok := false
          error := some (error.getD "Unknown Clawdbot execution error")
          edon_verdict := some Verdict.ERROR.value
          edon_explanation := some "Clawdbot execution failed"
          details := details }),
       db2, hist2)

/-- Row of the `credentials` table.  The composite primary key is
`(credential_id, tenant_id)`, where `tenant_id` is nullable; as in SQLite,
two rows whose `tenant_id` is null never conflict with each other. -/
structure CredRow where
  credential_id : String
  tool_name : String
  tenant_id : Option String
  credential_type : String
  credential_data : Value
  encrypted : Bool
  created_at : String
  updated_at : String

/-- The credentials table as a list in rowid (write) order. -/
abbrev CredStore := List CredRow

/-- SQL conflict test for the composite primary key: same `credential_id`
and both `tenant_id` non-null and equal (a null never equals anything, so
null-tenant rows never conflict). -/
def credConflict (a_id : String) (a_tenant : Option String) (r : CredRow) : Bool :=
  r.credential_id = a_id &&
    (match a_tenant, r.tenant_id with
     | some t, some t2 => t = t2
     | _, _ => false)

/-- Embedding of `Database.save_credential`: `INSERT OR REPLACE` deletes any
row conflicting on the primary key and appends the new row with a fresh
rowid.  `created_at` is preserved from a pre-existing row matching
`credential_id` with the same tenant filter (the `COALESCE` subquery),
falling back to `now`. -/
def save_credential (store : CredStore) (credential_id tool_name credential_type : String)
    (credential_data : Value) (encrypted : Bool) (tenant_id : Option String)
    (now : String) : CredStore :=
  let prior := store.filter (fun r =>
    r.credential_id = credential_id &&
      (match tenant_id, r.tenant_id with
       | some t, some t2 => t = t2
       | none, none => true
       | _, _ => false))
  let created_at := (prior.head?.map (·.created_at)).getD now
  store.filter (fun r => !credConflict credential_id tenant_id r) ++
    [{ credential_id := credential_id
       tool_name := tool_name
       tenant_id := tenant_id
       credential_type := credential_type
       credential_data := credential_data
       encrypted := encrypted
       created_at := created_at
       updated_at := now }]

/-- Embedding of `Database.get_credential`: filter on `credential_id`, on
`tool_name` when that argument is truthy (Python `if tool_name:`, so an
empty string does not filter), and strictly on the tenant — an explicit
tenant matches only rows with exactly that tenant, a `none` tenant matches
only null-tenant rows.  `ORDER BY rowid DESC LIMIT 1` picks the most
recently written match. -/
def get_credential (store : CredStore) (credential_id : String)
    (tool_name : Option String) (tenant_id : Option String) : Option CredRow :=
  (store.filter (fun r =>
    r.credential_id = credential_id &&
      (match tool_name with
       | some tn => if tn = "" then true else r.tool_name = tn
       | none => true) &&
      (match tenant_id with
       | some t => r.tenant_id = some t
       | none => r.tenant_id = (none : Option String)))).getLast?

/-- Per-window request limits of the rate-limit middleware
(`per_minute`, `per_hour`, `per_day`). -/
structure RateLimits where
  per_minute : Int
  per_hour : Int
  per_day : Int
deriving DecidableEq, Repr

/-- `DEFAULT_LIMITS` of `middleware/rate_limit.py`, as a function of
`IS_DEVELOPMENT`. -/
def default_limits (is_development : Bool) : RateLimits :=
  { per_minute := if is_development then 300 else 60
    per_hour := if is_development then 10000 else 1000
    per_day := if is_development then 100000 else 10000 }

/-- `ANONYMOUS_LIMITS` of `middleware/rate_limit.py`. -/
def anonymous_limits (is_development : Bool) : RateLimits :=
  { per_minute := if is_development then 60 else 10
    per_hour := if is_development then 1000 else 100
    per_day := if is_development then 5000 else 500 }

/-- `POLLING_ENDPOINT_LIMITS` of `middleware/rate_limit.py`. -/
def polling_endpoint_limits (is_development : Bool) : RateLimits :=
  { per_minute := if is_development then 120 else 60
    per_hour := if is_development then 20000 else 2000
    per_day := if is_development then 200000 else 20000 }

/-- The truncated-timestamp bucket strings (`strftime` renderings of now)
for the three windows. -/
structure TimeKeys where
  minute : String
  hour : String
  day : String
deriving DecidableEq, Repr

/-- Embedding of `get_rate_limit_key`:
`f"rate_limit:{agent_id}:{window}:{time_key}"`. -/
def get_rate_limit_key (agent_id window time_key : String) : String :=
  "rate_limit:" ++ agent_id ++ ":" ++ window ++ ":" ++ time_key

/-- The `counters` table: key to value, in insertion order. -/
abbrev Counters := List (String × Int)

/-- Embedding of `Database.get_counter` (0 when the key is absent). -/
def get_counter (cs : Counters) (key : String) : Int :=
  ((cs.lookup key).getD 0)

/-- Embedding of `Database.increment_counter`: upsert-with-increment on the
single row of `key`. -/
def increment_counter (cs : Counters) (key : String) (amount : Int) : Counters :=
  if (cs.lookup key).isSome then
    cs.map (fun kv => if kv.1 = key then (kv.1, kv.2 + amount) else kv)
  else
    cs ++ [(key, amount)]

/-- Embedding of `rate_limit.check_rate_limit`: each window is checked in
the dictionary order minute, hour, day against its counter; disabled rate
limiting always allows. -/
def rl_check_rate_limit (enabled : Bool) (agent_id : String) (limits : RateLimits)
    (tk : TimeKeys) (cs : Counters) : Bool × Option String :=
  if enabled = false then (true, none)
  else if limits.per_minute ≤ get_counter cs (get_rate_limit_key agent_id "minute" tk.minute) then
    (false, some ("Rate limit exceeded: " ++ toString limits.per_minute ++ " requests per minute"))
  else if limits.per_hour ≤ get_counter cs (get_rate_limit_key agent_id "hour" tk.hour) then
    (false, some ("Rate limit exceeded: " ++ toString limits.per_hour ++ " requests per hour"))
  else if limits.per_day ≤ get_counter cs (get_rate_limit_key agent_id "day" tk.day) then
    (false, some ("Rate limit exceeded: " ++ toString limits.per_day ++ " requests per day"))
  else
    (true, none)

/-- Embedding of `rate_limit.increment_rate_limit`: increment the minute,
hour and day counters of the agent (no-op when rate limiting is disabled). -/
def increment_rate_limit (enabled : Bool) (agent_id : String) (tk : TimeKeys)
    (cs : Counters) : Counters :=
  if enabled = false then cs
  else
    increment_counter
      (increment_counter
        (increment_counter cs (get_rate_limit_key agent_id "minute" tk.minute) 1)
        (get_rate_limit_key agent_id "hour" tk.hour) 1)
      (get_rate_limit_key agent_id "day" tk.day) 1

/-- The request attributes the rate-limit middleware reads: the path, the
`agent_id` query parameter, and the two agent headers. -/
structure RLRequest where
  path : String
  query_agent_id : Option String := none
  header_x_agent_id : Option String := none
  header_x_edon_agent_id : Option String := none

/-- `EXCLUDED_ENDPOINTS` of `RateLimitMiddleware`. -/
def excluded_endpoints : List String :=
  ["/health", "/docs", "/openapi.json", "/redoc", "/metrics", "/stats"]

/-- `POLLING_ENDPOINTS` of `RateLimitMiddleware`. -/
def polling_endpoints : List String :=
  ["/decisions/query", "/audit/query", "/timeseries", "/block-reasons"]

/-- Python truthiness of an optional string (`None` and `""` are falsy). -/
def truthyStr : Option String → Bool
  | some s => s ≠ ""
  | none => false

/-- Embedding of the agent-id resolution chain of `dispatch`: the query
parameter, then `X-Agent-ID`, then `X-EDON-Agent-ID`; when the first two are
falsy the raw value of the last header is kept (it may itself be `None` or
the empty string). -/
def resolve_agent_id (req : RLRequest) : Option String :=
  if truthyStr req.query_agent_id then req.query_agent_id
  else if truthyStr req.header_x_agent_id then req.header_x_agent_id
  else req.header_x_edon_agent_id

/-- The demo-mode Telegram exemption of `dispatch`: in demo mode, requests
whose agent header (X-Agent-ID, else X-EDON-Agent-ID) starts with
`"telegram:"` skip rate limiting. -/
def demo_telegram_exempt (demo_mode : Bool) (req : RLRequest) : Bool :=
  demo_mode &&
    (match (if truthyStr req.header_x_agent_id then req.header_x_agent_id
            else req.header_x_edon_agent_id) with
     | some h => decide (h ≠ "") && pyStartsWith h "telegram:"
     | none => false)

/-- The counter subject of a request: the resolved agent id when truthy,
otherwise `"anonymous"` (`rate_limit_key = agent_id if agent_id else
"anonymous"`). -/
def subject_key (req : RLRequest) : String :=
  match resolve_agent_id req with
  | some s => if s = "" then "anonymous" else s
  | none => "anonymous"

/-- The limits table `dispatch` selects: polling endpoints get the polling
table, anonymous requests (no resolved agent id) the stricter anonymous
table, and identified agents the middleware's configured table. -/
def limits_for (is_development : Bool) (custom_limits : RateLimits)
    (req : RLRequest) : RateLimits :=
  if polling_endpoints.contains req.path then polling_endpoint_limits is_development
  else if resolve_agent_id req = none then anonymous_limits is_development
  else custom_limits

/-- Embedding of `RateLimitMiddleware.dispatch`.  `inner_status` is the
status code the rest of the application produces for this request
(`call_next`); the function returns the final status and the counters table
after the middleware runs (response bodies and the Retry-After header are
not modelled).  The tenant-usage bookkeeping touches the
separate `tenant_usage` table, not the rate-limit counters, and is outside
this model. -/
def dispatch (rate_limit_enabled demo_mode is_development : Bool)
    (custom_limits : RateLimits) (req : RLRequest) (tk : TimeKeys)
    (inner_status : Nat) (cs : Counters) : Nat × Counters :=
  if excluded_endpoints.contains req.path then (inner_status, cs)
  else if demo_telegram_exempt demo_mode req = true then (inner_status, cs)
  else if rate_limit_enabled = false then (inner_status, cs)
  else
    let limits_to_use := limits_for is_development custom_limits req
    let rate_limit_key := subject_key req
    let allowed := (rl_check_rate_limit rate_limit_enabled rate_limit_key limits_to_use tk cs).1
    if allowed = false then (429, cs)
    else if 200 ≤ inner_status ∧ inner_status < 300 then
      (inner_status, increment_rate_limit rate_limit_enabled rate_limit_key tk cs)
    else
      (inner_status, cs)

/-! ## Concrete fixtures

Sample inputs used by witnesses and counterexamples. -/

/-- A fixed clock reading: 10:00 gateway time. -/
def dt10 : PyDateTime := { hour := 10, epoch := 1000000, iso := "2026-01-01T10:00:00+00:00" }

/-- An email send action with one recipient and no estimated risk. -/
def sendAction : Action :=
  { tool := Tool.email, op := "send", id := "act-1", requested_at := dt10,
    params := [("recipients", Value.pyList [Value.pyStr "a@x"]),
               ("subject", Value.pyStr "T"), ("body", Value.pyStr "B")] }

/-- A drafts-only intent whose scope allows only `email.draft` (so
`email.send` is out of scope). -/
def draftsOnlyIntent : IntentContract :=
  { objective := "handle email", scope := [("email", ["draft"])],
    constraints := { drafts_only := true }, risk_level := RiskLevel.low,
    approved_by_user := false }

/-- An intent allowing `email.send` with a recipient cap of 3. -/
def capIntent : IntentContract :=
  { objective := "send email updates", scope := [("email", ["send"])],
    constraints := { max_recipients := some 3 }, risk_level := RiskLevel.low,
    approved_by_user := false }

/-- An email send action with five recipients. -/
def fiveRecipientSend : Action :=
  { tool := Tool.email, op := "send", id := "act-5", requested_at := dt10,
    params := [("recipients", Value.pyList [Value.pyStr "a", Value.pyStr "b",
      Value.pyStr "c", Value.pyStr "d", Value.pyStr "e"])] }

/-- A file read action used for the loop-detection scenario. -/
def readAction : Action :=
  { tool := Tool.file, op := "read_file", id := "act-r", requested_at := dt10,
    params := [("path", Value.pyStr "/tmp/x")] }

/-- An intent allowing `file.read_file` with no constraints. -/
def fileIntent : IntentContract :=
  { objective := "file work", scope := [("file", ["read_file"])],
    constraints := {}, risk_level := RiskLevel.low, approved_by_user := false }

/-- A history holding four occurrences of `readAction`'s fingerprint within
the last minute. -/
def loopHistory : List HistEntry :=
  [{ ts := 999990, tool := Tool.file, op := "read_file",
     params_hash := paramsFingerprint readAction.params },
   { ts := 999991, tool := Tool.file, op := "read_file",
     params_hash := paramsFingerprint readAction.params },
   { ts := 999992, tool := Tool.file, op := "read_file",
     params_hash := paramsFingerprint readAction.params },
   { ts := 999993, tool := Tool.file, op := "read_file",
     params_hash := paramsFingerprint readAction.params }]

/-- The same four occurrences, all strictly older than the 60-second loop
window of `readAction`'s submission time. -/
def staleHistory : List HistEntry :=
  [{ ts := 999900, tool := Tool.file, op := "read_file",
     params_hash := paramsFingerprint readAction.params },
   { ts := 999901, tool := Tool.file, op := "read_file",
     params_hash := paramsFingerprint readAction.params },
   { ts := 999902, tool := Tool.file, op := "read_file",
     params_hash := paramsFingerprint readAction.params },
   { ts := 999903, tool := Tool.file, op := "read_file",
     params_hash := paramsFingerprint readAction.params }]

/-- A shell action running a dangerous command (spec scenario S2). -/
def dangerousShell : Action :=
  { tool := Tool.shell, op := "run", id := "act-2", requested_at := dt10,
    params := [("command", Value.pyStr "rm -rf /")] }

/-- A clawdbot invoke payload for the delegated-tool proxy. -/
def samplePayload : ClawdbotPayload :=
  { tool := "sessions_list", action := "json", args := [] }

/-- A default-deny intent: empty scope, no constraints. -/
def emptyScopeIntent : IntentContract :=
  { objective := "Default intent", scope := [], constraints := {},
    risk_level := RiskLevel.medium, approved_by_user := false }

/-- A request to `/execute` identified by the `agent_id` query parameter. -/
def rlReq : RLRequest := { path := "/execute", query_agent_id := some "alice" }

/-- Concrete time-bucket keys for the rate-limit windows. -/
def rlTk : TimeKeys := { minute := "202601011000", hour := "2026010110", day := "20260101" }

/-! ## Theorems -/

/-- Helper: the last element of a list is a member. -/
theorem getLast_mem_of_eq {α : Type} {l : List α} {a : α}
    (h : l.getLast? = some a) : a ∈ l := by
  obtain ⟨hne, rfl⟩ := List.mem_getLast?_eq_getLast (l := l) (x := a) h
  exact List.getLast_mem hne

/-- Claim C2: strict tenant credential lookup.  A lookup with an explicit
tenant returns only rows stored under exactly that tenant; a lookup with a
null tenant returns only null-tenant rows; and reading back right after a
write under the same tenant filter returns the row just written (the most
recently written matching row wins). -/
theorem strict_tenant_credential_lookup :
    (∀ (store : CredStore) (cid : String) (tn : Option String) (T : String) (row : CredRow),
      get_credential store cid tn (some T) = some row → row.tenant_id = some T) ∧
    (∀ (store : CredStore) (cid : String) (tn : Option String) (row : CredRow),
      get_credential store cid tn none = some row → row.tenant_id = none) ∧
    (∀ (store : CredStore) (cid tool ctype : String) (data : Value) (enc : Bool)
      (tenant : Option String) (now : String),
      ∃ row : CredRow,
        get_credential (save_credential store cid tool ctype data enc tenant now)
            cid none tenant = some row ∧
          row.tenant_id = tenant ∧ row.credential_data = data ∧
          row.updated_at = now ∧ row.tool_name = tool) := by
  refine ⟨?_, ?_, ?_⟩
  · intro store cid tn T row h
    have hmem := getLast_mem_of_eq h
    have hp := (List.mem_filter.mp hmem).2
    simp only [Bool.and_eq_true, decide_eq_true_eq] at hp
    exact hp.2
  · intro store cid tn row h
    have hmem := getLast_mem_of_eq h
    have hp := (List.mem_filter.mp hmem).2
    simp only [Bool.and_eq_true, decide_eq_true_eq] at hp
    exact hp.2
  · intro store cid tool ctype data enc tenant now
    refine ⟨{ credential_id := cid, tool_name := tool, tenant_id := tenant,
              credential_type := ctype, credential_data := data, encrypted := enc,
              created_at := (((store.filter (fun r =>
                r.credential_id = cid &&
                  (match tenant, r.tenant_id with
                   | some t, some t2 => t = t2
                   | none, none => true
                   | _, _ => false))).head?.map (·.created_at)).getD now),
              updated_at := now }, ?_, rfl, rfl, rfl, rfl⟩
    unfold save_credential get_credential
    rw [List.filter_append]
    cases tenant <;> simp

/-- Witness for C2 at a concrete store: two credentials saved under id
`"x"` for tenants `"A"` and `"B"`; the tenant-`"A"` lookup returns the
`"A"` row, and reading back after a null-tenant save returns that save. -/
theorem strict_tenant_credential_lookup_witness :
    ({ credential_id := "x", tool_name := "clawdbot", tenant_id := some "A",
       credential_type := "gateway", credential_data := Value.pyStr "tokA",
       encrypted := false, created_at := "t0", updated_at := "t0" } : CredRow).tenant_id
        = some "A" ∧
    (∃ row : CredRow,
      get_credential (save_credential [] "y" "email" "smtp" (Value.pyStr "s") false none "t1")
          "y" none none = some row ∧
        row.tenant_id = none ∧ row.credential_data = Value.pyStr "s" ∧
        row.updated_at = "t1" ∧ row.tool_name = "email") := by
  constructor
  · exact strict_tenant_credential_lookup.1
      [{ credential_id := "x", tool_name := "clawdbot", tenant_id := some "A",
         credential_type := "gateway", credential_data := Value.pyStr "tokA",
         encrypted := false, created_at := "t0", updated_at := "t0" },
       { credential_id := "x", tool_name := "clawdbot", tenant_id := some "B",
         credential_type := "gateway", credential_data := Value.pyStr "tokB",
         encrypted := false, created_at := "t0", updated_at := "t0" }]
      "x" none "A" _ rfl
  · exact strict_tenant_credential_lookup.2.2 [] "y" "email" "smtp"
      (Value.pyStr "s") false none "t1"

/-- Counterexample to claim C3 as stated: an `email.send` out of the
intent's scope with non-critical risk is not blocked with
`SCOPE_VIOLATION` — the drafts-only degrade fires first and returns
DEGRADE. -/
theorem risk_dominates_scope_counterexample :
    draftsOnlyIntent.allows_tool_op sendAction.tool.value sendAction.op = false ∧
    compute_risk {} sendAction ≠ RiskLevel.critical ∧
    (evaluate {} sendAction draftsOnlyIntent [] "f").1.verdict = Verdict.DEGRADE ∧
    (evaluate {} sendAction draftsOnlyIntent [] "f").1.verdict ≠ Verdict.BLOCK := by
  decide

/-- Claim C3 (amended): for every action and intent such that `(tool, op)`
is not in the intent's scope, *and the drafts-only degrade does not fire
first* (it is checked earlier and rescues email sends under
`drafts_only`), the evaluator returns BLOCK — with `RISK_TOO_HIGH` when the
computed risk is critical, `SCOPE_VIOLATION` otherwise. -/
theorem risk_dominates_scope_amended :
    ∀ (cfg : PolicyConfig) (a : Action) (i : IntentContract)
      (hist : List HistEntry) (fid : String),
    ¬(i.constraints.drafts_only = true ∧ a.tool = Tool.email ∧ a.op = "send") →
    i.allows_tool_op a.tool.value a.op = false →
    (evaluate cfg a i hist fid).1.verdict = Verdict.BLOCK ∧
    (evaluate cfg a i hist fid).1.reason_code =
      (if compute_risk cfg a = RiskLevel.critical then ReasonCode.RISK_TOO_HIGH
       else ReasonCode.SCOPE_VIOLATION) := by
  intro cfg a i hist fid hd hs
  simp only [evaluate]
  rw [if_neg hd, if_pos hs]
  by_cases hc : compute_risk cfg a = RiskLevel.critical
  · rw [if_pos hc, if_pos hc]
    exact ⟨rfl, rfl⟩
  · rw [if_neg hc, if_neg hc]
    exact ⟨rfl, rfl⟩

/-- Witness for the amended C3: a dangerous shell command out of an empty
scope is blocked with `RISK_TOO_HIGH` (spec scenario S2). -/
theorem risk_dominates_scope_amended_witness :
    (evaluate {} dangerousShell emptyScopeIntent [] "f").1.verdict = Verdict.BLOCK ∧
    (evaluate {} dangerousShell emptyScopeIntent [] "f").1.reason_code =
      ReasonCode.RISK_TOO_HIGH := by
  have h := risk_dominates_scope_amended {} dangerousShell emptyScopeIntent [] "f"
    (by decide) (by decide)
  exact ⟨h.1, by rw [h.2]; decide⟩

/-- Counterexample to claim C4 as stated: the degraded safe alternative is
not identical to the action up to `op` and the `"degraded"` tag — the
handler constructs a fresh `Action`, so `estimated_risk` falls back to the
default `LOW` (and the id is a fresh uuid) instead of being copied. -/
theorem drafts_only_identity_counterexample :
    (evaluate {} { sendAction with estimated_risk := RiskLevel.medium }
        draftsOnlyIntent [] "fresh-uuid").1.verdict = Verdict.DEGRADE ∧
    (evaluate {} { sendAction with estimated_risk := RiskLevel.medium }
        draftsOnlyIntent [] "fresh-uuid").1.safe_alternative.map (·.estimated_risk)
      = some RiskLevel.low ∧
    ({ sendAction with estimated_risk := RiskLevel.medium } : Action).estimated_risk
      = RiskLevel.medium ∧
    (evaluate {} { sendAction with estimated_risk := RiskLevel.medium }
        draftsOnlyIntent [] "fresh-uuid").1.safe_alternative.map (·.id)
      ≠ some ({ sendAction with estimated_risk := RiskLevel.medium } : Action).id := by
  refine ⟨rfl, rfl, rfl, ?_⟩
  decide

/-- Claim C4 (amended): for every action with tool `email` and op `send`
under a `drafts_only` intent — in particular with `email.send` out of
scope, since no scope hypothesis is needed — the evaluator returns DEGRADE
with `DEGRADED_TO_SAFE_ALTERNATIVE` and a safe alternative that copies the
action's tool, params, requested_at and source, sets `op = "draft"`,
appends the `"degraded"` tag, records the computed risk, and takes fresh
defaults for `id`, `estimated_risk` and `estimated_blast_radius`. -/
theorem drafts_only_degrade_amended :
    ∀ (cfg : PolicyConfig) (a : Action) (i : IntentContract)
      (hist : List HistEntry) (fid : String),
    i.constraints.drafts_only = true → a.tool = Tool.email → a.op = "send" →
    evaluate cfg a i hist fid =
      ({ verdict := Verdict.DEGRADE
         reason_code := ReasonCode.DEGRADED_TO_SAFE_ALTERNATIVE
         explanation := "Intent requires drafts_only, degrading send to draft"
         safe_alternative := some
           { tool := Tool.email, op := "draft", id := fid, params := a.params,
             requested_at := a.requested_at, source := a.source,
             tags := a.tags ++ ["degraded"], estimated_blast_radius := 0,
             estimated_risk := RiskLevel.low,
             computed_risk := some (compute_risk cfg a) } }, hist) := by
  intro cfg a i hist fid h1 h2 h3
  simp only [evaluate]
  rw [if_pos ⟨h1, h2, h3⟩, h2]

/-- Witness for the amended C4: spec scenario S1 — `email.send` under a
drafts-only intent whose scope allows only `email.draft` degrades to a
draft with the `"degraded"` tag. -/
theorem drafts_only_degrade_amended_witness :
    draftsOnlyIntent.allows_tool_op sendAction.tool.value sendAction.op = false ∧
    evaluate {} sendAction draftsOnlyIntent [] "fid-1" =
      ({ verdict := Verdict.DEGRADE
         reason_code := ReasonCode.DEGRADED_TO_SAFE_ALTERNATIVE
         explanation := "Intent requires drafts_only, degrading send to draft"
         safe_alternative := some
           { tool := Tool.email, op := "draft", id := "fid-1",
             params := sendAction.params, requested_at := sendAction.requested_at,
             source := sendAction.source, tags := sendAction.tags ++ ["degraded"],
             estimated_blast_radius := 0, estimated_risk := RiskLevel.low,
             computed_risk := some (compute_risk {} sendAction) } }, []) := by
  exact ⟨by decide,
    drafts_only_degrade_amended {} sendAction draftsOnlyIntent [] "fid-1"
      (by decide) (by decide) (by decide)⟩

/-- Claim C9: recipient cap escalation.  For every send-op action whose
recipient count strictly exceeds the intent's `max_recipients` and that
passes the earlier rules (drafts-only degrade, scope, work hours, loop,
rate, dangerous shell, exfiltration), the evaluator escalates with
`NEED_CONFIRMATION`, `required_confirmation`, a draft safe alternative
keeping the tool, source and requested_at, and the fixed option ids
`allow_once`, `draft_only`, `keep_blocking`. -/
theorem recipient_cap_escalation :
    ∀ (cfg : PolicyConfig) (a : Action) (i : IntentContract)
      (hist : List HistEntry) (fid : String) (m : Int),
    ¬(i.constraints.drafts_only = true ∧ a.tool = Tool.email ∧ a.op = "send") →
    i.allows_tool_op a.tool.value a.op = true →
    ¬(i.constraints.work_hours_only = true ∧ is_work_hours cfg a.requested_at = false) →
    detect_loop cfg (record_action hist a a.requested_at) a.tool a.op
      (paramsFingerprint a.params) a.requested_at = false →
    check_rate_limit cfg (record_action hist a a.requested_at) a.requested_at = false →
    ¬(a.tool = Tool.shell ∧
        is_dangerous_command cfg (getStrParam a.params "command") = true) →
    ¬(i.constraints.no_external_sharing = true ∧
        is_external_sharing cfg a.op a.params = true) →
    i.constraints.max_recipients = some m →
    (recipientCount a.params : Int) > m →
    a.op = "send" →
    (evaluate cfg a i hist fid).1.verdict = Verdict.ESCALATE ∧
    (evaluate cfg a i hist fid).1.reason_code = ReasonCode.NEED_CONFIRMATION ∧
    (evaluate cfg a i hist fid).1.required_confirmation = true ∧
    (evaluate cfg a i hist fid).1.safe_alternative = some
      { tool := a.tool, op := "draft", id := fid, params := a.params,
        requested_at := a.requested_at, source := a.source,
        tags := a.tags ++ ["degraded", "too_many_recipients"],
        estimated_blast_radius := 0, estimated_risk := RiskLevel.low,
        computed_risk := some (compute_risk cfg a) } ∧
    (evaluate cfg a i hist fid).1.escalation_options = some
      [("allow_once", "Allow once"), ("draft_only", "Save as draft only"),
       ("keep_blocking", "Keep blocking")] := by
  intro cfg a i hist fid m h1 h2 h3 h4 h5 h6 h7 hm hc hop
  simp only [evaluate]
  rw [if_neg h1, if_neg (by simp [h2]),
    if_neg (by intro hcl; rw [hop] at hcl; simp at hcl),
    if_neg h3]
  simp only [evaluate_post_record]
  rw [if_neg (by simp [h4]), if_neg (by simp [h5]), if_neg h6, if_neg h7]
  simp only [evaluate_constraints]
  rw [if_pos ⟨by rw [hm]; exact decide_eq_true hc, hop⟩]
  exact ⟨rfl, rfl, rfl, rfl, rfl⟩

/-- Witness for C9: spec scenario S4 — five recipients against a cap of
three escalate with a draft alternative and the fixed options. -/
theorem recipient_cap_escalation_witness :
    (evaluate {} fiveRecipientSend capIntent [] "fid-9").1.verdict = Verdict.ESCALATE ∧
    (evaluate {} fiveRecipientSend capIntent [] "fid-9").1.reason_code =
      ReasonCode.NEED_CONFIRMATION ∧
    (evaluate {} fiveRecipientSend capIntent [] "fid-9").1.required_confirmation = true ∧
    (evaluate {} fiveRecipientSend capIntent [] "fid-9").1.safe_alternative = some
      { tool := fiveRecipientSend.tool, op := "draft", id := "fid-9",
        params := fiveRecipientSend.params,
        requested_at := fiveRecipientSend.requested_at,
        source := fiveRecipientSend.source,
        tags := fiveRecipientSend.tags ++ ["degraded", "too_many_recipients"],
        estimated_blast_radius := 0, estimated_risk := RiskLevel.low,
        computed_risk := some (compute_risk {} fiveRecipientSend) } ∧
    (evaluate {} fiveRecipientSend capIntent [] "fid-9").1.escalation_options = some
      [("allow_once", "Allow once"), ("draft_only", "Save as draft only"),
       ("keep_blocking", "Keep blocking")] :=
  recipient_cap_escalation {} fiveRecipientSend capIntent [] "fid-9" 3
    (by decide) (by decide) (by decide) (by decide) (by decide) (by decide)
    (by decide) (by decide) (by decide) (by decide)

/-- Claim C10: the objective-alignment rule is vacuous for tools absent
from the keyword map (such as the delegated clawdbot tool): the alignment
check returns true regardless of the objective, so the evaluator never
returns `INTENT_MISMATCH` and never raises the ambiguous-intent
escalation (identified by its fixed option list). -/
theorem alignment_vacuous_for_unmapped_tools :
    ∀ (cfg : PolicyConfig) (a : Action) (i : IntentContract)
      (hist : List HistEntry) (fid : String),
    action_keywords a.tool = [] →
    check_intent_alignment a i = true ∧
    (evaluate cfg a i hist fid).1.reason_code ≠ ReasonCode.INTENT_MISMATCH ∧
    (evaluate cfg a i hist fid).1.escalation_options ≠ some
      [("clarify", "I" ++ sq ++ "ll clarify"), ("keep_blocking", "Cancel")] := by
  intro cfg a i hist fid hk
  have halign : check_intent_alignment a i = true := by
    simp [check_intent_alignment, hk]
  have hcons : ∀ h2 : List HistEntry,
      (evaluate_constraints cfg a i h2 fid).1.reason_code ≠ ReasonCode.INTENT_MISMATCH ∧
      (evaluate_constraints cfg a i h2 fid).1.escalation_options ≠ some
        [("clarify", "I" ++ sq ++ "ll clarify"), ("keep_blocking", "Cancel")] := by
    intro h2
    simp only [evaluate_constraints]
    split_ifs with g1 g2 g3 g4
    · exact ⟨by simp, by simp⟩
    · exact ⟨by simp, by simp⟩
    · simp [halign] at g3
    · simp [halign] at g3
    · exact ⟨by simp, by simp⟩
  have hpost : ∀ h2 : List HistEntry,
      (evaluate_post_record cfg a i h2 fid).1.reason_code ≠ ReasonCode.INTENT_MISMATCH ∧
      (evaluate_post_record cfg a i h2 fid).1.escalation_options ≠ some
        [("clarify", "I" ++ sq ++ "ll clarify"), ("keep_blocking", "Cancel")] := by
    intro h2
    simp only [evaluate_post_record]
    split_ifs
    · exact ⟨by simp, by simp⟩
    · exact ⟨by simp, by simp⟩
    · exact ⟨by simp, by simp⟩
    · exact ⟨by simp, by simp⟩
    · exact hcons h2
  have hmain : (evaluate cfg a i hist fid).1.reason_code ≠ ReasonCode.INTENT_MISMATCH ∧
      (evaluate cfg a i hist fid).1.escalation_options ≠ some
        [("clarify", "I" ++ sq ++ "ll clarify"), ("keep_blocking", "Cancel")] := by
    simp only [evaluate]
    split_ifs
    · exact ⟨by simp, by simp⟩
    · exact ⟨by simp, by simp⟩
    · exact ⟨by simp, by simp⟩
    · exact ⟨by simp, by simp⟩
    · exact ⟨by simp, by simp⟩
    · exact hpost _
  exact ⟨halign, hmain.1, hmain.2⟩

/-- Witness for C10: a clawdbot invoke against an objective mentioning
nothing related still aligns, and a full evaluation of an in-scope
clawdbot invoke never yields `INTENT_MISMATCH`. -/
theorem alignment_vacuous_for_unmapped_tools_witness :
    check_intent_alignment (clawdbot_action samplePayload dt10 "fid-10")
      { emptyScopeIntent with objective := "zzzz" } = true ∧
    (evaluate {} (clawdbot_action samplePayload dt10 "fid-10")
      { emptyScopeIntent with objective := "zzzz" } [] "fid-10").1.reason_code ≠
      ReasonCode.INTENT_MISMATCH := by
  have h := alignment_vacuous_for_unmapped_tools {}
    (clawdbot_action samplePayload dt10 "fid-10")
    { emptyScopeIntent with objective := "zzzz" } [] "fid-10" (by decide)
  exact ⟨h.1, h.2.1⟩

/-- Claim C5 (code bug): the evaluator is not raise-free.  First conjunct:
the dynamic risk computation of step 0 raises — `command.lower()` on a
non-string — for a shell action whose `command` parameter is the number
123, an input reachable through `POST /execute`, whose `action.params` is
an unvalidated `Dict[str, Any]`; `evaluate` has no exception handler, so
it neither returns a Decision there nor the promised ERROR one.  Second
conjunct: on string-valued commands the dynamic computation agrees with
the typed `compute_risk` used by the rest of this development.  Third
conjunct: `evaluate` has no path producing the ERROR verdict at all — the
ERROR envelope the claim (and spec §4.1) promises on internal failure
exists only in the `/clawdbot/invoke` handler's wrapper, not in the
evaluator. -/
theorem evaluate_not_raise_free :
    compute_risk_dyn {} Tool.shell [("command", Value.pyInt 123)] RiskLevel.low = none ∧
    (∀ (cfg : PolicyConfig) (s : String) (est : RiskLevel),
      compute_risk_dyn cfg Tool.shell [("command", Value.pyStr s)] est =
        some (if is_dangerous_command cfg s = true then RiskLevel.critical else est)) ∧
    (∀ (cfg : PolicyConfig) (a : Action) (i : IntentContract)
      (hist : List HistEntry) (fid : String),
      (evaluate cfg a i hist fid).1.verdict ≠ Verdict.ERROR) := by
  refine ⟨rfl, ?_, ?_⟩
  · intro cfg s est
    by_cases hb : is_dangerous_command cfg s = true
    · rw [if_pos hb]
      have hb2 : cfg.dangerous_shell_commands.any
          (fun dangerous => strContains (pyLower s) dangerous) = true := hb
      simp [compute_risk_dyn, is_dangerous_command_dyn, pyLowerDyn,
        List.lookup, hb2]
    · rw [if_neg hb]
      have hb2 : cfg.dangerous_shell_commands.any
          (fun dangerous => strContains (pyLower s) dangerous) = false := by
        cases hx : cfg.dangerous_shell_commands.any
            (fun dangerous => strContains (pyLower s) dangerous)
        · rfl
        · exact absurd hx hb
      simp [compute_risk_dyn, is_dangerous_command_dyn, pyLowerDyn,
        List.lookup, hb2]
  · intro cfg a i hist fid
    have hcons : ∀ h2 : List HistEntry,
        (evaluate_constraints cfg a i h2 fid).1.verdict ≠ Verdict.ERROR := by
      intro h2
      simp only [evaluate_constraints]
      split_ifs <;> simp
    have hpost : ∀ h2 : List HistEntry,
        (evaluate_post_record cfg a i h2 fid).1.verdict ≠ Verdict.ERROR := by
      intro h2
      simp only [evaluate_post_record]
      split_ifs
      · simp
      · simp
      · simp
      · simp
      · exact hcons h2
    simp only [evaluate]
    split_ifs
    · simp
    · simp
    · simp
    · simp
    · simp
    · exact hpost _

/-- Helper: spelling of the loop-match predicate of `detect_loop` for an
action `a` evaluated at its own `requested_at`. -/
def loopMatch (cfg : PolicyConfig) (a : Action) (e : HistEntry) : Bool :=
  decide (a.requested_at.epoch - cfg.loop_detection_window_seconds ≤ e.ts) &&
    e.tool == a.tool && e.op == a.op && e.params_hash == paramsFingerprint a.params

/-- Claim C7: loop detection counts the action being evaluated.  First
part: when the guards before loop detection pass and the history *after
recording the current action* holds at least `loop_detection_threshold`
matching entries inside the window — so the submission itself is the
threshold-crossing occurrence — the evaluator returns PAUSE with
`LOOP_DETECTED`.  Second part: when every prior matching occurrence lies
strictly outside the window (and the threshold is at least 2, as any
meaningful configuration has), the decision is never `LOOP_DETECTED`. -/
theorem loop_detection_counts_current :
    (∀ (cfg : PolicyConfig) (a : Action) (i : IntentContract)
      (hist : List HistEntry) (fid : String),
      ¬(i.constraints.drafts_only = true ∧ a.tool = Tool.email ∧ a.op = "send") →
      i.allows_tool_op a.tool.value a.op = true →
      ¬(a.tool = Tool.clawdbot ∧ a.op = "invoke" ∧
          i.constraints.allowed_clawdbot_tools ≠ [] ∧
          i.constraints.allowed_clawdbot_tools.contains
            (getStrParam a.params "tool") = false) →
      ¬(i.constraints.work_hours_only = true ∧
          is_work_hours cfg a.requested_at = false) →
      cfg.loop_detection_threshold ≤
        ((record_action hist a a.requested_at).filter (loopMatch cfg a)).length →
      (evaluate cfg a i hist fid).1.verdict = Verdict.PAUSE ∧
      (evaluate cfg a i hist fid).1.reason_code = ReasonCode.LOOP_DETECTED) ∧
    (∀ (cfg : PolicyConfig) (a : Action) (i : IntentContract)
      (hist : List HistEntry) (fid : String),
      (∀ e ∈ hist, e.tool = a.tool → e.op = a.op →
        e.params_hash = paramsFingerprint a.params →
        e.ts < a.requested_at.epoch - cfg.loop_detection_window_seconds) →
      2 ≤ cfg.loop_detection_threshold →
      (evaluate cfg a i hist fid).1.reason_code ≠ ReasonCode.LOOP_DETECTED) := by
  constructor
  · intro cfg a i hist fid h1 h2 h3 h4 hcount
    simp only [evaluate]
    rw [if_neg h1, if_neg (by simp [h2]), if_neg h3, if_neg h4]
    simp only [evaluate_post_record]
    rw [if_pos (show detect_loop cfg (record_action hist a a.requested_at) a.tool a.op
      (paramsFingerprint a.params) a.requested_at = true by
        simp only [detect_loop, decide_eq_true_eq]
        simpa only [loopMatch] using hcount)]
    exact ⟨rfl, rfl⟩
  · intro cfg a i hist fid hOut hThr
    have hall : ∀ e ∈ hist,
        (decide (a.requested_at.epoch - cfg.loop_detection_window_seconds ≤ e.ts) &&
          e.tool == a.tool && e.op == a.op &&
          e.params_hash == paramsFingerprint a.params) = false := by
      intro e he
      by_cases ht : e.tool = a.tool
      · by_cases ho : e.op = a.op
        · by_cases hp : e.params_hash = paramsFingerprint a.params
          · have hts := hOut e he ht ho hp
            have hnle : ¬(a.requested_at.epoch -
                cfg.loop_detection_window_seconds ≤ e.ts) := not_le.mpr hts
            simp [hnle]
          · simp [hp]
        · simp [ho]
      · simp [ht]
    have hLoop : detect_loop cfg (record_action hist a a.requested_at) a.tool a.op
        (paramsFingerprint a.params) a.requested_at = false := by
      simp only [detect_loop]
      apply decide_eq_false
      intro hle
      have hsubl : List.Sublist (record_action hist a a.requested_at)
          (hist ++ [({ ts := a.requested_at.epoch, tool := a.tool, op := a.op,
                       params_hash := paramsFingerprint a.params } : HistEntry)]) := by
        unfold record_action
        exact List.filter_sublist _
      have h5 := (hsubl.filter (fun e =>
        decide (a.requested_at.epoch - cfg.loop_detection_window_seconds ≤ e.ts) &&
          e.tool == a.tool && e.op == a.op &&
          e.params_hash == paramsFingerprint a.params)).length_le
      have hnil : List.filter (fun e =>
          decide (a.requested_at.epoch - cfg.loop_detection_window_seconds ≤ e.ts) &&
            e.tool == a.tool && e.op == a.op &&
            e.params_hash == paramsFingerprint a.params) hist = [] :=
        List.filter_eq_nil_iff.mpr (fun e he => by simp only [hall e he]; simp)
      rw [List.filter_append, hnil, List.nil_append] at h5
      have h6 := List.length_filter_le (fun e : HistEntry =>
        decide (a.requested_at.epoch - cfg.loop_detection_window_seconds ≤ e.ts) &&
          e.tool == a.tool && e.op == a.op &&
          e.params_hash == paramsFingerprint a.params)
        [({ ts := a.requested_at.epoch, tool := a.tool, op := a.op,
            params_hash := paramsFingerprint a.params } : HistEntry)]
      simp only [List.length_singleton] at h6
      omega
    have hcons : ∀ h2 : List HistEntry,
        (evaluate_constraints cfg a i h2 fid).1.reason_code ≠
          ReasonCode.LOOP_DETECTED := by
      intro h2
      simp only [evaluate_constraints]
      split_ifs <;> simp
    simp only [evaluate]
    split_ifs
    · simp
    · simp
    · simp
    · simp
    · simp
    · simp only [evaluate_post_record]
      split_ifs with g1 g2 g3 g4
      · exact absurd g1 (by simp [hLoop])
      · simp
      · simp
      · simp
      · exact hcons _

/-- Witness for C7: spec scenario S5 with the default threshold of 5 —
four prior identical `file.read_file` submissions within the window make
the fifth PAUSE with `LOOP_DETECTED`; with the same four occurrences all
outside the window the submission does not trigger `LOOP_DETECTED`. -/
theorem loop_detection_counts_current_witness :
    (evaluate {} readAction fileIntent loopHistory "f7").1.verdict = Verdict.PAUSE ∧
    (evaluate {} readAction fileIntent loopHistory "f7").1.reason_code =
      ReasonCode.LOOP_DETECTED ∧
    (evaluate {} readAction fileIntent staleHistory "f7").1.reason_code ≠
      ReasonCode.LOOP_DETECTED := by
  have hA := loop_detection_counts_current.1 {} readAction fileIntent loopHistory "f7"
    (by decide) (by decide) (by decide) (by decide) (by decide)
  have hB := loop_detection_counts_current.2 {} readAction fileIntent staleHistory "f7"
    (by decide) (by decide)
  exact ⟨hA.1, hA.2, hB⟩

/-- Claim C1: no execution without authorization.  For both `POST /execute`
and `POST /clawdbot/invoke`, when the evaluator's verdict is neither ALLOW
nor DEGRADE the handler's outcome does not depend on the connector dispatch
at all (so no connector is invoked) and the returned envelope carries no
execution result (`execution = none` for `/execute`; `ok = false` and
`result = none` with HTTP 200 for the proxy). -/
theorem no_execution_without_authorization :
    (∀ (cfg : PolicyConfig) (a : Action) (i : IntentContract)
      (iid : Option String) (aid : String) (hist : List HistEntry) (db : AuditDb)
      (fid now : String) (exec1 exec2 : Action → ExecOutcome),
      (evaluate cfg a i hist fid).1.verdict ≠ Verdict.ALLOW →
      (evaluate cfg a i hist fid).1.verdict ≠ Verdict.DEGRADE →
      execute_action cfg a i iid aid hist db fid now exec1 =
        execute_action cfg a i iid aid hist db fid now exec2 ∧
      ∃ resp : ExecuteResponse,
        (execute_action cfg a i iid aid hist db fid now exec1).1 = Except.ok resp ∧
        resp.execution = none) ∧
    (∀ (cfg : PolicyConfig) (payload : ClawdbotPayload)
      (xa xe xi : Option String) (intent : IntentContract) (hist : List HistEntry)
      (db : AuditDb) (persist dev : Bool) (defcred : String) (now : PyDateTime)
      (fid : String) (invoke1 invoke2 : ClawdbotPayload → ConnectorOutcome),
      (evaluate cfg (clawdbot_action payload now fid) intent hist fid).1.verdict ≠
        Verdict.ALLOW →
      (evaluate cfg (clawdbot_action payload now fid) intent hist fid).1.verdict ≠
        Verdict.DEGRADE →
      clawdbot_invoke_proxy cfg payload xa xe xi intent hist db persist dev defcred
          now fid invoke1 =
        clawdbot_invoke_proxy cfg payload xa xe xi intent hist db persist dev defcred
          now fid invoke2 ∧
      (clawdbot_invoke_proxy cfg payload xa xe xi intent hist db persist dev defcred
          now fid invoke1).1.1 = 200 ∧
      (clawdbot_invoke_proxy cfg payload xa xe xi intent hist db persist dev defcred
          now fid invoke1).1.2.ok = false ∧
      (clawdbot_invoke_proxy cfg payload xa xe xi intent hist db persist dev defcred
          now fid invoke1).1.2.result = none) := by
  constructor
  · intro cfg a i iid aid hist db fid now exec1 exec2 hA hD
    have hcond : (evaluate cfg a i hist fid).1.verdict ≠ Verdict.ALLOW ∧
        (evaluate cfg a i hist fid).1.verdict ≠ Verdict.DEGRADE := ⟨hA, hD⟩
    refine ⟨?_, ?_⟩
    · simp only [execute_action]
      rw [if_pos hcond, if_pos hcond]
    · simp only [execute_action]
      rw [if_pos hcond]
      exact ⟨_, rfl, rfl⟩
  · intro cfg payload xa xe xi intent hist db persist dev defcred now fid
      invoke1 invoke2 hA hD
    have hcond : (evaluate cfg (clawdbot_action payload now fid) intent hist
          fid).1.verdict ≠ Verdict.ALLOW ∧
        (evaluate cfg (clawdbot_action payload now fid) intent hist
          fid).1.verdict ≠ Verdict.DEGRADE := ⟨hA, hD⟩
    refine ⟨?_, ?_, ?_, ?_⟩
    · simp only [clawdbot_invoke_proxy]
      rw [if_pos hcond, if_pos hcond]
    · simp only [clawdbot_invoke_proxy]
      rw [if_pos hcond]
    · simp only [clawdbot_invoke_proxy]
      rw [if_pos hcond]
    · simp only [clawdbot_invoke_proxy]
      rw [if_pos hcond]

/-- Witness for C1: a dangerous shell command against an empty scope is
blocked, and the `/execute` outcome is the same whether the connector would
have succeeded or been unreachable; likewise a delegated invoke under an
empty scope returns the blocked envelope untouched by the connector. -/
theorem no_execution_without_authorization_witness :
    execute_action {} dangerousShell emptyScopeIntent none "agent-1" [] {} "fid" "now-1"
        (fun _ => ExecOutcome.result (Value.pyDict [])) =
      execute_action {} dangerousShell emptyScopeIntent none "agent-1" [] {} "fid" "now-1"
        (fun _ => ExecOutcome.unavailable "downstream down") ∧
    (clawdbot_invoke_proxy {} samplePayload none none none emptyScopeIntent [] {}
        true false "cred-default" dt10 "fid"
        (fun _ => ConnectorOutcome.success (some (Value.pyDict [])))).1.2.ok = false := by
  constructor
  · exact (no_execution_without_authorization.1 {} dangerousShell emptyScopeIntent
      none "agent-1" [] {} "fid" "now-1"
      (fun _ => ExecOutcome.result (Value.pyDict []))
      (fun _ => ExecOutcome.unavailable "downstream down")
      (by decide) (by decide)).1
  · exact (no_execution_without_authorization.2 {} samplePayload none none none
      emptyScopeIntent [] {} true false "cred-default" dt10 "fid"
      (fun _ => ConnectorOutcome.success (some (Value.pyDict [])))
      (fun _ => ConnectorOutcome.success (some (Value.pyDict [])))
      (by decide) (by decide)).2.2.1

/-- Helper: filtering a filtered list still yields nothing when filtering
the underlying list yields nothing. -/
theorem filter_filter_of_nil {α : Type} (l : List α) (q p : α → Bool)
    (h : l.filter p = []) : (l.filter q).filter p = [] := by
  have hs := (List.filter_sublist l : List.Sublist (l.filter q) l).filter p
  rw [h] at hs
  exact List.sublist_nil.mp hs

/-- Counterexample to claim C6 as stated: with decision persistence
disabled through the `EDON_PERSIST_DECISIONS` switch, a
`POST /clawdbot/invoke` request that passes the pipeline (here one that
executes successfully end to end) leaves no audit event and no decision
row at all. -/
theorem decision_persistence_counterexample :
    ((clawdbot_invoke_proxy {} samplePayload none none none emptyScopeIntent [] {}
        false false "cred" dt10 "fid-6c"
        (fun _ => ConnectorOutcome.success none)).2.1).audit_events = [] ∧
    ((clawdbot_invoke_proxy {} samplePayload none none none emptyScopeIntent [] {}
        false false "cred" dt10 "fid-6c"
        (fun _ => ConnectorOutcome.success none)).2.1).decisions = [] := by
  exact ⟨rfl, rfl⟩

/-- Claim C6 (amended): decision persistence.  For every `POST /execute`,
and for every `POST /clawdbot/invoke` *provided decision persistence has
not been disabled via `EDON_PERSIST_DECISIONS`* (it is enabled by
default), a request whose action id is fresh for the store leaves exactly
one audit event and exactly one decision row for that action, whatever the
verdict, and the decision row's id is
`"dec-" + action.id + "-" + timestamp`. -/
theorem decision_persistence_amended :
    (∀ (cfg : PolicyConfig) (a : Action) (i : IntentContract) (iid : Option String)
      (aid : String) (hist : List HistEntry) (db : AuditDb) (fid now : String)
      (execTool : Action → ExecOutcome),
      a.id ≠ "" →
      db.audit_events.filter (fun r => r.action_id == a.id) = [] →
      db.decisions.filter (fun r => r.action_id == a.id) = [] →
      ((execute_action cfg a i iid aid hist db fid now execTool).2.1.audit_events.filter
        (fun r => r.action_id == a.id)).length = 1 ∧
      ((execute_action cfg a i iid aid hist db fid now execTool).2.1.decisions.filter
        (fun r => r.action_id == a.id)).length = 1 ∧
      ∀ drow ∈ (execute_action cfg a i iid aid hist db fid now
          execTool).2.1.decisions.filter (fun r => r.action_id == a.id),
        drow.decision_id = "dec-" ++ a.id ++ "-" ++ now ∧
        drow.verdict = (evaluate cfg a i hist fid).1.verdict.value) ∧
    (∀ (cfg : PolicyConfig) (payload : ClawdbotPayload) (xa xe xi : Option String)
      (intent : IntentContract) (hist : List HistEntry) (db : AuditDb) (dev : Bool)
      (defcred : String) (now : PyDateTime) (fid : String)
      (invoke : ClawdbotPayload → ConnectorOutcome),
      fid ≠ "" →
      db.audit_events.filter (fun r => r.action_id == fid) = [] →
      db.decisions.filter (fun r => r.action_id == fid) = [] →
      ((clawdbot_invoke_proxy cfg payload xa xe xi intent hist db true dev defcred
          now fid invoke).2.1.audit_events.filter
        (fun r => r.action_id == fid)).length = 1 ∧
      ((clawdbot_invoke_proxy cfg payload xa xe xi intent hist db true dev defcred
          now fid invoke).2.1.decisions.filter
        (fun r => r.action_id == fid)).length = 1 ∧
      ∀ drow ∈ (clawdbot_invoke_proxy cfg payload xa xe xi intent hist db true dev
          defcred now fid invoke).2.1.decisions.filter (fun r => r.action_id == fid),
        drow.decision_id = "dec-" ++ fid ++ "-" ++ now.iso) := by
  constructor
  · intro cfg a i iid aid hist db fid now execTool hId hA hD
    have hdb : (execute_action cfg a i iid aid hist db fid now execTool).2.1 =
        (save_audit_event db { a with computed_risk := some (compute_risk cfg a) }
          (evaluate cfg a i hist fid).1 iid (some aid)
          [("agent_id", Value.pyStr aid)] now).2 := by
      simp only [execute_action]
      split
      · rfl
      · split <;> rfl
    rw [hdb]
    simp only [save_audit_event]
    rw [if_pos hId]
    refine ⟨?_, ?_, ?_⟩
    · rw [List.filter_append, hA, List.nil_append]
      simp
    · rw [List.filter_append, filter_filter_of_nil _ _ _ hD, List.nil_append]
      simp
    · intro drow hmem
      rw [List.filter_append, filter_filter_of_nil _ _ _ hD, List.nil_append] at hmem
      simp only [List.filter, beq_self_eq_true, List.mem_singleton] at hmem
      subst hmem
      exact ⟨rfl, rfl⟩
  · intro cfg payload xa xe xi intent hist db dev defcred now fid invoke hId hA hD
    have hdb : (clawdbot_invoke_proxy cfg payload xa xe xi intent hist db true dev
        defcred now fid invoke).2.1 =
        (save_audit_event db
          { clawdbot_action payload now fid with
              computed_risk := some (compute_risk cfg (clawdbot_action payload now fid)) }
          (evaluate cfg (clawdbot_action payload now fid) intent hist fid).1 xi
          (some (pyOrStr xe (pyOrStr xa "clawdbot-agent")))
          [("agent_id", Value.pyStr (pyOrStr xe (pyOrStr xa "clawdbot-agent"))),
           ("source", Value.pyStr "clawdbot")] now.iso).2 := by
      simp only [clawdbot_invoke_proxy, if_true]
      split
      · rfl
      · split <;> rfl
    rw [hdb]
    have hIdA : ({ clawdbot_action payload now fid with
        computed_risk := some (compute_risk cfg (clawdbot_action payload now fid)) } :
        Action).id ≠ "" := hId
    simp only [save_audit_event]
    rw [if_pos hIdA]
    refine ⟨?_, ?_, ?_⟩
    · rw [List.filter_append, hA, List.nil_append]
      simp [clawdbot_action]
    · rw [List.filter_append, filter_filter_of_nil _ _ _ hD, List.nil_append]
      simp [clawdbot_action]
    · intro drow hmem
      rw [List.filter_append, filter_filter_of_nil _ _ _ hD, List.nil_append] at hmem
      simp only [clawdbot_action, List.filter, beq_self_eq_true,
        List.mem_singleton] at hmem
      subst hmem
      rfl

/-- Witness for the amended C6: a blocked `/execute` call and a delegated
invoke (with persistence enabled) against an empty store each leave exactly
one audit row for the action. -/
theorem decision_persistence_amended_witness :
    ((execute_action {} dangerousShell emptyScopeIntent none "agent-6" [] {} "fid-6"
        "now-6" (fun _ => ExecOutcome.result (Value.pyDict []))).2.1.audit_events.filter
      (fun r => r.action_id == dangerousShell.id)).length = 1 ∧
    ((clawdbot_invoke_proxy {} samplePayload none none none emptyScopeIntent [] {}
        true false "cred" dt10 "fid-6w"
        (fun _ => ConnectorOutcome.success none)).2.1.decisions.filter
      (fun r => r.action_id == "fid-6w")).length = 1 := by
  constructor
  · exact (decision_persistence_amended.1 {} dangerousShell emptyScopeIntent none
      "agent-6" [] {} "fid-6" "now-6" (fun _ => ExecOutcome.result (Value.pyDict []))
      (by decide) rfl rfl).1
  · exact (decision_persistence_amended.2 {} samplePayload none none none
      emptyScopeIntent [] {} false "cred" dt10 "fid-6w"
      (fun _ => ConnectorOutcome.success none) (by decide) rfl rfl).2.1

/-- Helper: the upsert map of `increment_counter` rewrites the value found
under the incremented key. -/
theorem lookup_map_incr (l : Counters) (k : String) (n : Int) :
    (l.map (fun kv => if kv.1 = k then (kv.1, kv.2 + n) else kv)).lookup k =
      (l.lookup k).map (fun v => v + n) := by
  induction l with
  | nil => rfl
  | cons hd tl ih =>
    simp only [List.map]
    by_cases hk : hd.1 = k
    · have hbeq : (k == hd.1) = true := by simp [beq_iff_eq, hk]
      rw [show (if hd.1 = k then (hd.1, hd.2 + n) else hd) = (hd.1, hd.2 + n) from
        if_pos hk]
      simp [List.lookup, hbeq]
    · have hbeq : (k == hd.1) = false := by
        simp [beq_iff_eq]
        exact fun h => hk h.symm
      rw [show (if hd.1 = k then (hd.1, hd.2 + n) else hd) = hd from if_neg hk]
      simp [List.lookup, hbeq, ih]

/-- Helper: the upsert map of `increment_counter` leaves other keys
untouched. -/
theorem lookup_map_incr_ne (l : Counters) (k k2 : String) (n : Int) (h : k2 ≠ k) :
    (l.map (fun kv => if kv.1 = k then (kv.1, kv.2 + n) else kv)).lookup k2 =
      l.lookup k2 := by
  induction l with
  | nil => rfl
  | cons hd tl ih =>
    simp only [List.map]
    by_cases hk : hd.1 = k
    · have hbeq : (k2 == hd.1) = false := by
        simp [beq_iff_eq, hk]
        exact h
      rw [show (if hd.1 = k then (hd.1, hd.2 + n) else hd) = (hd.1, hd.2 + n) from
        if_pos hk]
      simp [List.lookup, hbeq, ih]
    · rw [show (if hd.1 = k then (hd.1, hd.2 + n) else hd) = hd from if_neg hk]
      cases hb : (k2 == hd.1) <;> simp [List.lookup, hb, ih]

/-- Helper: lookup distributes over append through the first hit. -/
theorem lookup_append_counters (l₁ l₂ : Counters) (k : String) :
    (l₁ ++ l₂).lookup k =
      (match l₁.lookup k with
       | some v => some v
       | none => l₂.lookup k) := by
  induction l₁ with
  | nil => simp [List.lookup]
  | cons hd tl ih => cases hb : (k == hd.1) <;> simp [List.lookup, hb, ih]

/-- Helper: incrementing a counter key adds to exactly that key's value. -/
theorem get_increment_same (cs : Counters) (k : String) (n : Int) :
    get_counter (increment_counter cs k n) k = get_counter cs k + n := by
  by_cases hs : (cs.lookup k).isSome
  · obtain ⟨v, hv⟩ := Option.isSome_iff_exists.mp hs
    rw [increment_counter, if_pos hs]
    rw [get_counter, get_counter, lookup_map_incr, hv]
    simp
  · have hnone : cs.lookup k = none := Option.not_isSome_iff_eq_none.mp hs
    rw [increment_counter, if_neg hs]
    rw [get_counter, get_counter, lookup_append_counters, hnone]
    simp [List.lookup]

/-- Helper: incrementing one counter key leaves every other key's value
unchanged. -/
theorem get_increment_other (cs : Counters) (k k2 : String) (n : Int)
    (h : k2 ≠ k) : get_counter (increment_counter cs k n) k2 = get_counter cs k2 := by
  by_cases hs : (cs.lookup k).isSome
  · rw [increment_counter, if_pos hs]
    rw [get_counter, get_counter, lookup_map_incr_ne _ _ _ _ h]
  · rw [increment_counter, if_neg hs]
    rw [get_counter, get_counter, lookup_append_counters]
    have hbeq : (k2 == k) = false := by simp [beq_iff_eq]; exact h
    cases hl : cs.lookup k2 <;> simp [List.lookup, hbeq]

/-- Helper: on a non-excluded, non-demo-exempt request with rate limiting
enabled, `dispatch` either rejects with 429 (counters untouched), or passes
the request through, incrementing the subject's counters exactly when the
inner response is 2xx. -/
theorem dispatch_normal (demo dev : Bool) (lim : RateLimits) (req : RLRequest)
    (tk : TimeKeys) (st : Nat) (cs : Counters)
    (hexcl : excluded_endpoints.contains req.path = false)
    (hdemo : demo_telegram_exempt demo req = false) :
    dispatch true demo dev lim req tk st cs =
      if (rl_check_rate_limit true (subject_key req) (limits_for dev lim req)
          tk cs).1 = false then (429, cs)
      else if 200 ≤ st ∧ st < 300 then
        (st, increment_rate_limit true (subject_key req) tk cs)
      else (st, cs) := by
  simp only [dispatch]
  rw [if_neg (by simpa using hexcl), if_neg (by simp [hdemo]), if_neg (by decide)]

/-- Counterexample to claim C8 as stated: `/health` is on the middleware's
excluded-endpoint list, so a 200 response to it leaves the counters
untouched even though its status is in [200, 300) — the "incremented
exactly when 2xx" biconditional fails for excluded endpoints. -/
theorem rate_counters_success_only_counterexample :
    (dispatch true false false (default_limits false) { path := "/health" }
      rlTk 200 []).1 = 200 ∧
    (dispatch true false false (default_limits false) { path := "/health" }
      rlTk 200 []).2 = [] := by
  exact ⟨rfl, rfl⟩

/-- Claim C8 (amended): rate-limit counters count only successes.  For
every request, a final 4xx/5xx (indeed any non-2xx) response leaves the
counters unchanged; and for every non-excluded, non-demo-exempt request
with rate limiting enabled whose final status is 2xx, the subject's
minute, hour and day counters are each incremented by one (their keys
being pairwise distinct) and every other counter is unchanged. -/
theorem rate_counters_success_only_amended :
    (∀ (enabled demo dev : Bool) (lim : RateLimits) (req : RLRequest)
      (tk : TimeKeys) (st : Nat) (cs : Counters),
      ¬(200 ≤ (dispatch enabled demo dev lim req tk st cs).1 ∧
        (dispatch enabled demo dev lim req tk st cs).1 < 300) →
      (dispatch enabled demo dev lim req tk st cs).2 = cs) ∧
    (∀ (demo dev : Bool) (lim : RateLimits) (req : RLRequest) (tk : TimeKeys)
      (st : Nat) (cs : Counters),
      excluded_endpoints.contains req.path = false →
      demo_telegram_exempt demo req = false →
      200 ≤ (dispatch true demo dev lim req tk st cs).1 →
      (dispatch true demo dev lim req tk st cs).1 < 300 →
      get_rate_limit_key (subject_key req) "minute" tk.minute ≠
        get_rate_limit_key (subject_key req) "hour" tk.hour →
      get_rate_limit_key (subject_key req) "minute" tk.minute ≠
        get_rate_limit_key (subject_key req) "day" tk.day →
      get_rate_limit_key (subject_key req) "hour" tk.hour ≠
        get_rate_limit_key (subject_key req) "day" tk.day →
      get_counter (dispatch true demo dev lim req tk st cs).2
          (get_rate_limit_key (subject_key req) "minute" tk.minute) =
        get_counter cs (get_rate_limit_key (subject_key req) "minute" tk.minute) + 1 ∧
      get_counter (dispatch true demo dev lim req tk st cs).2
          (get_rate_limit_key (subject_key req) "hour" tk.hour) =
        get_counter cs (get_rate_limit_key (subject_key req) "hour" tk.hour) + 1 ∧
      get_counter (dispatch true demo dev lim req tk st cs).2
          (get_rate_limit_key (subject_key req) "day" tk.day) =
        get_counter cs (get_rate_limit_key (subject_key req) "day" tk.day) + 1 ∧
      ∀ k2 : String,
        k2 ≠ get_rate_limit_key (subject_key req) "minute" tk.minute →
        k2 ≠ get_rate_limit_key (subject_key req) "hour" tk.hour →
        k2 ≠ get_rate_limit_key (subject_key req) "day" tk.day →
        get_counter (dispatch true demo dev lim req tk st cs).2 k2 =
          get_counter cs k2) := by
  constructor
  · intro enabled demo dev lim req tk st cs hn
    simp only [dispatch] at hn ⊢
    split_ifs at hn ⊢ with g1 g2 g3 g4 g5
    · rfl
    · rfl
    · rfl
    · rfl
    · exact absurd g5 (by simpa using hn)
    · rfl
  · intro demo dev lim req tk st cs hexcl hdemo h200 h300 hk1 hk2 hk3
    have hd := dispatch_normal demo dev lim req tk st cs hexcl hdemo
    rw [hd] at h200 h300 ⊢
    by_cases hall : (rl_check_rate_limit true (subject_key req)
        (limits_for dev lim req) tk cs).1 = false
    · rw [if_pos hall] at h300
      simp at h300
    · rw [if_neg hall] at h200 h300 ⊢
      by_cases h2xx : 200 ≤ st ∧ st < 300
      · rw [if_pos h2xx]
        simp only [increment_rate_limit]
        rw [if_neg (by decide)]
        refine ⟨?_, ?_, ?_, ?_⟩
        · rw [get_increment_other _ _ _ _ hk2, get_increment_other _ _ _ _ hk1,
            get_increment_same]
        · rw [get_increment_other _ _ _ _ hk3, get_increment_same,
            get_increment_other _ _ _ _ (Ne.symm hk1)]
        · rw [get_increment_same, get_increment_other _ _ _ _ (Ne.symm hk3),
            get_increment_other _ _ _ _ (Ne.symm hk2)]
        · intro k2 hm hh hdk
          rw [get_increment_other _ _ _ _ hdk, get_increment_other _ _ _ _ hh,
            get_increment_other _ _ _ _ hm]
      · rw [if_neg h2xx] at h200 h300
        simp at h200 h300
        exact absurd ⟨h200, h300⟩ h2xx

/-- Witness for the amended C8: an identified request to `/execute` with a
200 inner response increments the agent's minute counter from 0 to 1. -/
theorem rate_counters_success_only_amended_witness :
    get_counter (dispatch true false false (default_limits false) rlReq rlTk
        200 []).2 (get_rate_limit_key (subject_key rlReq) "minute" rlTk.minute) =
      get_counter [] (get_rate_limit_key (subject_key rlReq) "minute" rlTk.minute) + 1 := by
  exact (rate_counters_success_only_amended.2 false false (default_limits false)
    rlReq rlTk 200 [] (by decide) (by decide) (by decide) (by decide)
    (by decide) (by decide) (by decide)).1

end EdonGateway
